import Mathlib

/-!
Shallow embedding of the Avalon game engine (`game_engine/` of the
ai-the-resistance repository): enums and config tables (`enums.py`,
`config.py`), the entity model (`models.py`) and the game state machine
(`game.py`).

Modelling conventions:
* Python `Player` objects are compared and hashed by `name`
  (`Player.__eq__` / `Player.__hash__`), so dictionaries keyed by players
  and membership tests on player lists are modelled by the player's name.
  `Quest.team` and `Quest.leader` store only what the engine ever reads
  from them: names.
* Python dictionaries (`pre_quest_votes`, `in_quest_votes`, the visibility
  map) are modelled as insertion-ordered association lists with
  update-in-place on an existing key, exactly Python's semantics.
* Exceptions are modelled by returning the state as mutated up to the
  raise point together with `some` error; `none` means normal return.
  Every `raise` site of the source gets its own `GameError` constructor,
  mirroring the distinguishable `ValueError`s of the source (plus the
  two latent `AttributeError` / unreachable branches, see below).
* The source mutates the *object* passed to `vote_for_team` /
  `vote_on_quest`.  The engine's drivers always pass either an element of
  `game.players` or (nothing stops them) a foreign object with a fresh
  name.  We model this by returning the updated passed object and
  additionally writing it back over every roster entry carrying its name;
  for roster callers this is exactly the aliasing of the source, and for
  foreign callers with a name not present in the roster the write-back is
  a no-op, again exactly as in the source.
* Randomness (`random.randint` for the initial leader, `random.shuffle`
  for the role list) is a parameter of `AvalonGame.init`: the caller
  supplies the drawn leader index and the already-shuffled role list.
* In `Quest.add_vote` and `Quest.process_result` the source evaluates
  `self.leader.name`; when no team was ever proposed `leader` is `None`
  and Python would raise `AttributeError` *after* the vote dictionary was
  already updated.  `add_vote` models this by the `leaderNone` error at
  that exact program point; in `process_result` a nonempty
  `pre_quest_votes` implies a proposal happened, so `leader` is set there
  in every state the engine can reach, and the model reads it with a
  default.
-/

/-- `Team` enum (`enums.py`). -/
inductive Team where
  | GOOD
  | EVIL
deriving DecidableEq, Repr

/-- `Role` enum (`enums.py`). -/
inductive Role where
  | MERLIN
  | PERCIVAL
  | LOYAL_SERVANT
  | ASSASSIN
  | MORGANA
  | MORDRED
  | OBERON
  | MINION
deriving DecidableEq, Repr

/-- `GamePhase` enum (`enums.py`). -/
inductive GamePhase where
  | SETUP
  | TEAM_BUILDING
  | TEAM_VOTING
  | QUEST
  | ASSASSINATION
  | GAME_END
deriving DecidableEq, Repr

/-- `QuestResult` enum (`enums.py`). -/
inductive QuestResult where
  | SUCCESS
  | FAIL
  | PENDING
  | NOT_STARTED
deriving DecidableEq, Repr

/-- `VoteType` enum (`enums.py`). -/
inductive VoteType where
  | APPROVE
  | REJECT
  | SUCCESS
  | FAIL
deriving DecidableEq, Repr

/-- One constructor per distinguishable raise site of the source
(`ValueError` messages, plus the latent `AttributeError` on a `None`
leader). -/
inductive GameError where
  | invalidPlayerCount      -- "Player count must be between 5 and 10"
  | emptyPlayerName         -- Player.__init__: "Player name must be a non-empty string"
  | wrongPhase              -- "Cannot ... in ... phase"
  | notLeader               -- "Only the leader can propose a team"
  | badTeamSize             -- "Team size must be ..."
  | duplicateTeam           -- "Team cannot contain duplicate players"
  | badTeamVoteKind         -- "Team vote must be APPROVE or REJECT"
  | badQuestVoteKind        -- "Quest vote must be SUCCESS or FAIL"
  | goodCannotFail          -- "Good players cannot vote to fail quests"
  | notTeamMember           -- "Only team members can vote on the quest"
  | invalidVoteType         -- Quest.add_vote: "Invalid vote type"
  | questNumberNotPositive  -- "Quest number must be positive"
  | notAllVoted             -- "Not all team members have voted"
  | leaderNone              -- AttributeError: quest leader is None
  | noAssassin              -- "No assassin in the game"
deriving DecidableEq, Repr

/-- `TeamVoteRecord` dataclass (`models.py`). -/
structure TeamVoteRecord where
  quest_number : Nat
  leader : String
  proposed_team : List String
  vote : VoteType
  quest_result : Option QuestResult
deriving DecidableEq, Repr

/-- `QuestVoteRecord` dataclass (`models.py`). -/
structure QuestVoteRecord where
  quest_number : Nat
  team : List String
  vote : VoteType
deriving DecidableEq, Repr

/-- `Player` (`models.py`): identity is the name; role/team start
unassigned; the two vote histories are append-only lists. -/
structure Player where
  name : String
  role : Option Role
  team : Option Team
  team_vote_history : List TeamVoteRecord
  quest_vote_history : List QuestVoteRecord
deriving DecidableEq, Repr

/-- Team derived from a role, as in `Player.assign_role`
(`models.py`): MERLIN/PERCIVAL/LOYAL_SERVANT are good, the rest evil. -/
def roleTeam (r : Role) : Team :=
  match r with
  | Role.MERLIN => Team.GOOD
  | Role.PERCIVAL => Team.GOOD
  | Role.LOYAL_SERVANT => Team.GOOD
  | _ => Team.EVIL

/-- Insertion-ordered dictionary update, Python semantics: an existing
key keeps its position and gets the new value, a fresh key is appended. -/
def dictInsert {α : Type} (d : List (String × α)) (k : String) (v : α) :
    List (String × α) :=
  if d.any (fun kv => kv.1 == k) then
    d.map (fun kv => if kv.1 == k then (kv.1, v) else kv)
  else d ++ [(k, v)]

/-- `dict.update` with an insertion-ordered sequence of entries. -/
def dictInsertMany {α : Type} (d : List (String × α))
    (es : List (String × α)) : List (String × α) :=
  es.foldl (fun acc kv => dictInsert acc kv.1 kv.2) d

/-- `Quest` (`models.py`).  `team` and `leader` hold player names (the
source stores object references but only ever reads names, name-equality
and name-hashes from them). -/
structure Quest where
  quest_number : Nat
  required_team_size : Nat
  fails_required : Nat
  team : List String
  pre_quest_votes : List (String × VoteType)
  in_quest_votes : List (String × VoteType)
  result : QuestResult
  leader : Option String
  team_vote_counter : Nat
deriving DecidableEq, Repr

/-- `Quest.__init__` (`models.py`) with its validations. -/
def Quest.init (quest_number required_team_size fails_required : Nat) :
    Except GameError Quest :=
  if quest_number < 1 then Except.error GameError.questNumberNotPositive
  else if required_team_size < 1 then Except.error GameError.badTeamSize
  else if fails_required < 1 then Except.error GameError.badTeamSize
  else if required_team_size < fails_required then
    Except.error GameError.badTeamSize
  else Except.ok
    { quest_number := quest_number
      required_team_size := required_team_size
      fails_required := fails_required
      team := []
      pre_quest_votes := []
      in_quest_votes := []
      result := QuestResult.NOT_STARTED
      leader := none
      team_vote_counter := 0 }

/-- `Quest.set_team` (`models.py`): size check, duplicate check (via
`set(team)`, i.e. distinct names), then store a copy of the team, the
leader, and clear both vote dictionaries. -/
def Quest.set_team (q : Quest) (teamNames : List String)
    (leaderName : String) : Quest × Option GameError :=
  if teamNames.length ≠ q.required_team_size then (q, some GameError.badTeamSize)
  else if teamNames.dedup.length ≠ teamNames.length then
    (q, some GameError.duplicateTeam)
  else
    ({ q with
        team := teamNames
        leader := some leaderName
        pre_quest_votes := []
        in_quest_votes := [] }, none)

/-- `Player.add_team_vote` (`models.py`): validations, then append an
immutable record. -/
def Player.add_team_vote (p : Player) (vote : VoteType) (quest_number : Nat)
    (leader : String) (proposed_team : List String)
    (quest_result : Option QuestResult) : Player × Option GameError :=
  if vote ≠ VoteType.APPROVE ∧ vote ≠ VoteType.REJECT then
    (p, some GameError.badTeamVoteKind)
  else if quest_number < 1 then (p, some GameError.questNumberNotPositive)
  else
    ({ p with team_vote_history := p.team_vote_history ++
        [{ quest_number := quest_number, leader := leader,
           proposed_team := proposed_team, vote := vote,
           quest_result := quest_result }] }, none)

/-- `Player.add_quest_vote` (`models.py`). -/
def Player.add_quest_vote (p : Player) (vote : VoteType) (quest_number : Nat)
    (team : List String) : Player × Option GameError :=
  if vote ≠ VoteType.SUCCESS ∧ vote ≠ VoteType.FAIL then
    (p, some GameError.badQuestVoteKind)
  else if quest_number < 1 then (p, some GameError.questNumberNotPositive)
  else
    ({ p with quest_vote_history := p.quest_vote_history ++
        [{ quest_number := quest_number, team := team, vote := vote }] },
      none)

/-- `Quest.add_vote` (`models.py`).  Returns the updated quest, the
updated voter object, and the error if one is raised.  Note the source's
order of effects on the team-vote branch: `pre_quest_votes[player] = vote`
happens first, then `player.add_team_vote(..., leader=self.leader.name,
...)` — so a `None` leader raises only after the dictionary was updated. -/
def Quest.add_vote (q : Quest) (p : Player) (vote : VoteType) :
    Quest × Player × Option GameError :=
  if vote = VoteType.APPROVE ∨ vote = VoteType.REJECT then
    let q' := { q with pre_quest_votes := dictInsert q.pre_quest_votes p.name vote }
    match q.leader with
    | none => (q', p, some GameError.leaderNone)
    | some ln =>
      let (p', err) := p.add_team_vote vote q.quest_number ln q.team none
      (q', p', err)
  else if vote = VoteType.SUCCESS ∨ vote = VoteType.FAIL then
    if ¬ q.team.contains p.name then (q, p, some GameError.notTeamMember)
    else
      let q' := { q with in_quest_votes := dictInsert q.in_quest_votes p.name vote }
      let (p', err) := p.add_quest_vote vote q.quest_number q.team
      (q', p', err)
  else (q, p, some GameError.invalidVoteType)

/-- The record appended by the backfill loop of `Quest.process_result`
for a voter whose counted vote is `vote`. -/
def backfillRecord (q : Quest) (res : QuestResult) (vote : VoteType) :
    TeamVoteRecord :=
  { quest_number := q.quest_number
    leader := q.leader.getD ""
    proposed_team := q.team
    vote := vote
    quest_result := some res }

/-- One voter's history mutation inside the backfill loop of
`Quest.process_result` (`models.py`): remove the voter's *first*
team-vote record carrying this quest number (`next(...)` +
`list.remove`) and append a fresh record built from the final team,
leader and counted vote, now carrying the result. -/
def questBackfillStep (q : Quest) (res : QuestResult) (pl : Player)
    (v : VoteType) : Player :=
  { pl with team_vote_history :=
      (pl.team_vote_history.eraseP
        (fun r => r.quest_number == q.quest_number)) ++
      [backfillRecord q res v] }

/-- The backfill loop of `Quest.process_result` (`models.py`), applied
per entry of `pre_quest_votes`.  The voters are the game's players,
reached in the source through the dictionary keys; the model applies the
same mutation to every roster player carrying the voter's name. -/
def questVoteBackfill (q : Quest) (res : QuestResult)
    (players : List Player) : List Player :=
  q.pre_quest_votes.foldl
    (fun ps kv => ps.map (fun pl =>
      if pl.name == kv.1 then questBackfillStep q res pl kv.2
      else pl)) players

/-- `Quest.process_result` (`models.py`): validate that all team members
voted, tally FAIL votes, set `result`, then run the record backfill over
the voters. -/
def Quest.process_result (q : Quest) (players : List Player) :
    Quest × List Player × Option GameError :=
  if q.in_quest_votes.length ≠ q.required_team_size then
    (q, players, some GameError.notAllVoted)
  else
    let fail_votes := (q.in_quest_votes.filter
      (fun kv => kv.2 == VoteType.FAIL)).length
    let res := if q.fails_required ≤ fail_votes then QuestResult.FAIL
      else QuestResult.SUCCESS
    let q' := { q with result := res }
    let players' := questVoteBackfill q res players
    (q', players', none)

/-- The in-place record replacement of
`AvalonGame._process_quest_result` (`game.py`): a record carrying the
quest's number is replaced by a copy whose `quest_result` is the quest's
result; any other record is kept as is. -/
def setQuestResult (qn : Nat) (res : QuestResult) (r : TeamVoteRecord) :
    TeamVoteRecord :=
  if r.quest_number == qn then { r with quest_result := some res } else r

/-- The history-update loop of `AvalonGame._process_quest_result`
(`game.py`), applied to every player's team-vote history. -/
def gameHistoryBackfill (qn : Nat) (res : QuestResult)
    (players : List Player) : List Player :=
  players.map (fun pl =>
    { pl with team_vote_history :=
        pl.team_vote_history.map (setQuestResult qn res) })

/-- `AvalonGame` (`game.py`).  `assassin` stores the assassin's name (the
source stores the object, read only for truthiness); `assassinated_player`
stores the target object handed to `assassinate` (read for its role by
`get_winner`). -/
structure AvalonGame where
  players : List Player
  player_count : Nat
  quests : List Quest
  current_quest_idx : Nat
  current_leader_idx : Nat
  phase : GamePhase
  failed_votes_count : Nat
  succeeded_quests : Nat
  failed_quests : Nat
  assassin : Option String
  assassinated_player : Option Player
deriving DecidableEq, Repr

/-- `QUEST_CONFIGS` (`config.py`): quest team sizes per player count. -/
def QUEST_CONFIGS (n : Nat) : List Nat :=
  match n with
  | 5 => [2, 3, 2, 3, 3]
  | 6 => [2, 3, 4, 3, 4]
  | 7 => [2, 3, 3, 4, 4]
  | 8 => [3, 4, 4, 5, 5]
  | 9 => [3, 4, 4, 5, 5]
  | 10 => [3, 4, 4, 5, 5]
  | _ => []

/-- `QUEST_FAILURES_REQUIRED` (`config.py`): fails required per player
count and 0-based quest index (`.get(i, 1)`, default 1). -/
def QUEST_FAILURES_REQUIRED (n : Nat) (i : Nat) : Nat :=
  match n, i with
  | 7, 3 => 2
  | 8, 3 => 2
  | 9, 3 => 2
  | 10, 3 => 2
  | 10, 4 => 2
  | _, _ => 1

/-- `MAX_FAILED_VOTES` (`config.py`): consecutive failed team votes
before the game ends. -/
def MAX_FAILED_VOTES : Nat := 5

/-- A placeholder player for out-of-range list reads, which the engine
never performs in a state it can reach. -/
def defaultPlayer : Player :=
  { name := "", role := none, team := none,
    team_vote_history := [], quest_vote_history := [] }

/-- A placeholder quest for out-of-range list reads, which the engine
never performs in a state it can reach. -/
def defaultQuest : Quest :=
  { quest_number := 0, required_team_size := 0, fails_required := 0,
    team := [], pre_quest_votes := [], in_quest_votes := [],
    result := QuestResult.NOT_STARTED, leader := none,
    team_vote_counter := 0 }

namespace AvalonGame

/-- `AvalonGame._setup_quests` (`game.py`). -/
def setup_quests (n : Nat) : List Quest :=
  (QUEST_CONFIGS n).enum.map (fun si =>
    { quest_number := si.1 + 1
      required_team_size := si.2
      fails_required := QUEST_FAILURES_REQUIRED n si.1
      team := []
      pre_quest_votes := []
      in_quest_votes := []
      result := QuestResult.NOT_STARTED
      leader := none
      team_vote_counter := 0 })

/-- `AvalonGame._assign_roles` (`game.py`): zip the shuffled role list
onto the players (truncating at the shorter list, as `zip` does), set
role and derived team (`Player.assign_role`), and remember the last
player given ASSASSIN. -/
def assign_roles (players : List Player) (roles : List Role) :
    List Player × Option String :=
  (players.zip roles).foldl
    (fun acc pr =>
      let p' := { pr.1 with role := some pr.2, team := some (roleTeam pr.2) }
      (acc.1.map (fun pl => if pl.name == p'.name then p' else pl),
        if pr.2 = Role.ASSASSIN then some p'.name else acc.2))
    (players, none)

/-- `AvalonGame.__init__` (`game.py`), with the randomness (the drawn
leader index and the shuffled role list) supplied as parameters. -/
def init (player_names : List String) (leader_idx : Nat)
    (shuffled_roles : List Role) : Except GameError AvalonGame :=
  if ¬ (5 ≤ player_names.length ∧ player_names.length ≤ 10) then
    Except.error GameError.invalidPlayerCount
  else if player_names.any (fun n => n == "") then
    Except.error GameError.emptyPlayerName
  else
    let players0 := player_names.map (fun n =>
      { name := n, role := none, team := none,
        team_vote_history := [], quest_vote_history := [] : Player })
    let (players, assassin) := assign_roles players0 shuffled_roles
    Except.ok
      { players := players
        player_count := player_names.length
        quests := setup_quests player_names.length
        current_quest_idx := 0
        current_leader_idx := leader_idx
        phase := GamePhase.SETUP
        failed_votes_count := 0
        succeeded_quests := 0
        failed_quests := 0
        assassin := assassin
        assassinated_player := none }

/-- `AvalonGame.get_current_quest` (`game.py`). -/
def get_current_quest (g : AvalonGame) : Quest :=
  g.quests.getD g.current_quest_idx defaultQuest

/-- Write the current quest back (Python mutates it through the alias). -/
def setCurrentQuest (g : AvalonGame) (q : Quest) : AvalonGame :=
  { g with quests := g.quests.set g.current_quest_idx q }

/-- `AvalonGame.get_current_leader` (`game.py`). -/
def get_current_leader (g : AvalonGame) : Player :=
  g.players.getD g.current_leader_idx defaultPlayer

/-- `AvalonGame.advance_leader` (`game.py`). -/
def advance_leader (g : AvalonGame) : AvalonGame :=
  { g with current_leader_idx := (g.current_leader_idx + 1) % g.player_count }

/-- Write an updated voter object back over the roster entries carrying
its name (the aliasing of mutating a roster member in place; a no-op for
a foreign voter whose name is not in the roster). -/
def updateRoster (g : AvalonGame) (p : Player) : AvalonGame :=
  { g with players := g.players.map (fun pl => if pl.name == p.name then p else pl) }

/-- `AvalonGame.propose_team` (`game.py`): phase check, leader check
(player equality is name equality), then `Quest.set_team` and the move to
TEAM_VOTING. -/
def propose_team (g : AvalonGame) (leader : Player) (team : List Player) :
    AvalonGame × Option GameError :=
  if g.phase ≠ GamePhase.TEAM_BUILDING then (g, some GameError.wrongPhase)
  else if leader.name ≠ (g.get_current_leader).name then
    (g, some GameError.notLeader)
  else
    let (q', err) := (g.get_current_quest).set_team
      (team.map Player.name) leader.name
    match err with
    | some e => (g.setCurrentQuest q', some e)
    | none => ({ g.setCurrentQuest q' with phase := GamePhase.TEAM_VOTING }, none)

/-- `AvalonGame._process_team_votes` (`game.py`).  The float comparison
`approve_votes > player_count / 2` is exact and equals
`2 * approve_votes > player_count`. -/
def process_team_votes (g : AvalonGame) : AvalonGame :=
  let q := g.get_current_quest
  let approve_votes := (q.pre_quest_votes.filter
    (fun kv => kv.2 == VoteType.APPROVE)).length
  if g.player_count < 2 * approve_votes then
    { g with failed_votes_count := 0, phase := GamePhase.QUEST }
  else
    let g1 := { g with failed_votes_count := g.failed_votes_count + 1 }
    let g2 := g1.setCurrentQuest
      { q with team_vote_counter := q.team_vote_counter + 1 }
    let g3 := g2.advance_leader
    if MAX_FAILED_VOTES ≤ g3.failed_votes_count then
      { g3 with phase := GamePhase.GAME_END }
    else
      { g3 with phase := GamePhase.TEAM_BUILDING }

/-- `AvalonGame.vote_for_team` (`game.py`): phase check, vote-kind check,
`Quest.add_vote`, and team-vote tabulation once all `player_count` votes
are in.  Returns the new game state, the updated voter object, and the
error if one is raised. -/
def vote_for_team (g : AvalonGame) (p : Player) (vote : VoteType) :
    AvalonGame × Player × Option GameError :=
  if g.phase ≠ GamePhase.TEAM_VOTING then (g, p, some GameError.wrongPhase)
  else if vote ≠ VoteType.APPROVE ∧ vote ≠ VoteType.REJECT then
    (g, p, some GameError.badTeamVoteKind)
  else
    let (q', p', err) := (g.get_current_quest).add_vote p vote
    let g1 := (g.setCurrentQuest q').updateRoster p'
    match err with
    | some e => (g1, p', some e)
    | none =>
      if q'.pre_quest_votes.length = g.player_count then
        (g1.process_team_votes, p', none)
      else (g1, p', none)

/-- `AvalonGame._process_quest_result` (`game.py`): replace every
team-vote record carrying the current quest's number with a copy whose
`quest_result` is the quest's result, then either move to ASSASSINATION
(3 successes), to GAME_END (3 failures), or advance quest and leader and
return to TEAM_BUILDING. -/
def process_quest_result (g : AvalonGame) : AvalonGame :=
  let q := g.get_current_quest
  let res := q.result
  let players' := gameHistoryBackfill q.quest_number res g.players
  let g1 : AvalonGame := { g with players := players' }
  if 3 ≤ g1.succeeded_quests then { g1 with phase := GamePhase.ASSASSINATION }
  else if 3 ≤ g1.failed_quests then { g1 with phase := GamePhase.GAME_END }
  else
    let g2 := { g1 with current_quest_idx := g1.current_quest_idx + 1 }
    let g3 := g2.advance_leader
    { g3 with phase := GamePhase.TEAM_BUILDING }

/-- `AvalonGame.vote_on_quest` (`game.py`): phase check, vote-kind check,
the good-players-cannot-fail check on the voter's team, the membership
check against the quest's team, then `Quest.add_vote`; once all team
members have voted, `Quest.process_result`, the success/failure counter
update, and `_process_quest_result`. -/
def vote_on_quest (g : AvalonGame) (p : Player) (vote : VoteType) :
    AvalonGame × Player × Option GameError :=
  if g.phase ≠ GamePhase.QUEST then (g, p, some GameError.wrongPhase)
  else if vote ≠ VoteType.SUCCESS ∧ vote ≠ VoteType.FAIL then
    (g, p, some GameError.badQuestVoteKind)
  else if vote = VoteType.FAIL ∧ p.team ≠ some Team.EVIL then
    (g, p, some GameError.goodCannotFail)
  else if ¬ (g.get_current_quest).team.contains p.name then
    (g, p, some GameError.notTeamMember)
  else
    let (q', p', err) := (g.get_current_quest).add_vote p vote
    let g1 := (g.setCurrentQuest q').updateRoster p'
    match err with
    | some e => (g1, p', some e)
    | none =>
      if q'.in_quest_votes.length = q'.required_team_size then
        let (q2, players2, err2) := q'.process_result g1.players
        let g2 := { g1.setCurrentQuest q2 with players := players2 }
        match err2 with
        | some e => (g2, p', some e)
        | none =>
          let res := q2.result
          let g3 : AvalonGame := { g2 with
            succeeded_quests := g2.succeeded_quests +
              (if res = QuestResult.SUCCESS then 1 else 0),
            failed_quests := g2.failed_quests +
              (if res = QuestResult.FAIL then 1 else 0) }
          (g3.process_quest_result, p', none)
      else (g1, p', none)

/-- `AvalonGame.assassinate` (`game.py`). -/
def assassinate (g : AvalonGame) (target : Player) :
    AvalonGame × Option GameError :=
  if g.phase ≠ GamePhase.ASSASSINATION then (g, some GameError.wrongPhase)
  else if g.assassin = none then (g, some GameError.noAssassin)
  else
    let g1 : AvalonGame := { g with
      assassinated_player := some target,
      phase := GamePhase.GAME_END }
    (g1, none)

/-- `AvalonGame.is_game_over` (`game.py`). -/
def is_game_over (g : AvalonGame) : Bool :=
  g.phase == GamePhase.GAME_END

/-- `AvalonGame.get_winner` (`game.py`). -/
def get_winner (g : AvalonGame) : Option Team :=
  if ¬ g.is_game_over then none
  else if 3 ≤ g.failed_quests then some Team.EVIL
  else
    match g.assassinated_player with
    | some t => if t.role = some Role.MERLIN then some Team.EVIL else some Team.GOOD
    | none => some Team.GOOD

/-- `AvalonGame.get_visible_roles` (`game.py`): the viewer's own entry,
then the role-dependent `dict.update` over the player list in order. -/
def get_visible_roles (g : AvalonGame) (p : Player) :
    List (String × Option Role) :=
  let base : List (String × Option Role) := [(p.name, p.role)]
  if p.role = some Role.MERLIN then
    dictInsertMany base
      ((g.players.filter (fun q =>
          q.team == some Team.EVIL && q.role != some Role.MORDRED)).map
        (fun q => (q.name, some Role.MINION)))
  else if p.role = some Role.PERCIVAL then
    dictInsertMany base
      ((g.players.filter (fun q =>
          q.role == some Role.MERLIN || q.role == some Role.MORGANA)).map
        (fun q => (q.name, some Role.MERLIN)))
  else if p.team = some Team.EVIL ∧ p.role ≠ some Role.OBERON then
    dictInsertMany base
      ((g.players.filter (fun q =>
          q.team == some Team.EVIL && q.role != some Role.OBERON &&
          q.name != p.name)).map
        (fun q => (q.name, q.role)))
  else base

/-- The drivers' start step (`examples/run_game.py`,
`examples/simple_game.py`, test `setUp`): `game.phase =
GamePhase.TEAM_BUILDING`, performed once on the freshly constructed
game. -/
def startGame (g : AvalonGame) : AvalonGame :=
  { g with phase := GamePhase.TEAM_BUILDING }

end AvalonGame

/-! ### Concrete drivers

Closed runs of the engine, used to evaluate the state machine on the
concrete scenarios of the specification (a driver passes the roster's
own player objects to the engine, as the example scripts do). -/

/-- Fallback value for reading a failed construction; never used on the
concrete inputs below, all of which construct successfully. -/
def fallbackGame : AvalonGame :=
  { players := [], player_count := 0, quests := [], current_quest_idx := 0,
    current_leader_idx := 0, phase := GamePhase.SETUP,
    failed_votes_count := 0, succeeded_quests := 0, failed_quests := 0,
    assassin := none, assassinated_player := none }

/-- Driver call `game.propose_team(leader, team)` with the roster
objects named `leaderName` and `teamNames`. -/
def proposeByNames (g : AvalonGame) (leaderName : String)
    (teamNames : List String) : AvalonGame :=
  let leader := (g.players.find? (fun p => p.name == leaderName)).getD defaultPlayer
  let team := teamNames.map (fun n =>
    (g.players.find? (fun p => p.name == n)).getD defaultPlayer)
  (g.propose_team leader team).1

/-- Driver call `game.vote_for_team(player, vote)` with the roster
object named `n`. -/
def teamVoteByName (g : AvalonGame) (n : String) (v : VoteType) : AvalonGame :=
  match g.players.find? (fun p => p.name == n) with
  | some p => (g.vote_for_team p v).1
  | none => g

/-- Driver call `game.vote_on_quest(player, vote)` with the roster
object named `n`. -/
def questVoteByName (g : AvalonGame) (n : String) (v : VoteType) : AvalonGame :=
  match g.players.find? (fun p => p.name == n) with
  | some p => (g.vote_on_quest p v).1
  | none => g

/-- All roster players cast the same team vote, in roster order. -/
def allTeamVote (g : AvalonGame) (v : VoteType) : AvalonGame :=
  (g.players.map Player.name).foldl (fun acc n => teamVoteByName acc n v) g

/-- One full rejected proposal round: the current leader proposes the
first `required_team_size` roster players, then every player votes
REJECT. -/
def rejectionRound (g : AvalonGame) : AvalonGame :=
  let size := (g.get_current_quest).required_team_size
  let g1 := proposeByNames g (g.get_current_leader).name
    ((g.players.map Player.name).take size)
  allTeamVote g1 VoteType.REJECT

/-- The five-player test fixture of `tests/test_game.py` (`setUp`):
Alice=MERLIN, Bob=Charlie=LOYAL_SERVANT, Dave=ASSASSIN, Eve=MINION,
leader index 0. -/
def testNames : List String := ["Alice", "Bob", "Charlie", "Dave", "Eve"]

/-- The shuffled role list matching the test fixture. -/
def testRoles : List Role :=
  [Role.MERLIN, Role.LOYAL_SERVANT, Role.LOYAL_SERVANT,
   Role.ASSASSIN, Role.MINION]

/-- The freshly constructed five-player fixture game (phase SETUP). -/
def testGame : AvalonGame :=
  (AvalonGame.init testNames 0 testRoles).toOption.getD fallbackGame

/-- The fixture game after the drivers' start step (phase
TEAM_BUILDING). -/
def testGameStarted : AvalonGame := testGame.startGame

/-- Five consecutive full rejection rounds from the started fixture
game: the attrition scenario of the specification. -/
def attritionGame : AvalonGame :=
  rejectionRound (rejectionRound (rejectionRound (rejectionRound
    (rejectionRound testGameStarted))))

/-- A concrete quest for instantiating `quest_result_fail_iff`: team of
two, both voted, one FAIL among the votes, one fail required. -/
def sampleQuest : Quest :=
  { quest_number := 1, required_team_size := 2, fails_required := 1,
    team := ["a", "b"],
    pre_quest_votes := [("a", VoteType.APPROVE), ("b", VoteType.APPROVE)],
    in_quest_votes := [("a", VoteType.FAIL), ("b", VoteType.SUCCESS)],
    result := QuestResult.NOT_STARTED, leader := some "a",
    team_vote_counter := 0 }

/-- C4 scenario, stage 1: quest 1's first proposal (leader Alice, team
Alice/Bob) is rejected by everyone, then leader Bob proposes Alice/Bob
again and everyone approves. -/
def c4Approved : AvalonGame :=
  allTeamVote (proposeByNames (rejectionRound testGameStarted)
    "Bob" ["Alice", "Bob"]) VoteType.APPROVE

/-- C4 scenario, stage 2: both team members vote SUCCESS, completing the
quest and triggering both backfill passes. -/
def c4Done : AvalonGame :=
  questVoteByName (questVoteByName c4Approved "Alice" VoteType.SUCCESS)
    "Bob" VoteType.SUCCESS

/-- A logged record for instantiating the backfill characterization:
the player voted APPROVE on `sampleQuest`'s quest number. -/
def sampleRecord : TeamVoteRecord :=
  { quest_number := 1, leader := "x", proposed_team := ["a", "b"],
    vote := VoteType.APPROVE, quest_result := none }

/-- The roster itself: one player named "a" holding `sampleRecord`. -/
def samplePlayers : List Player :=
  [{ name := "a", role := some Role.MERLIN, team := some Team.GOOD,
     team_vote_history := [sampleRecord], quest_vote_history := [] }]

/-- A player whose team matches their assigned role, the state
`Player.assign_role` establishes. -/
def playerConsistent (q : Player) : Bool :=
  match q.role with
  | some r => q.team == some (roleTeam r)
  | none => false

/-- A seven-player game including MORGANA and OBERON, for the C6
witness. -/
def oberonGame : AvalonGame :=
  (AvalonGame.init ["P1", "P2", "P3", "P4", "P5", "P6", "P7"] 0
    [Role.MERLIN, Role.LOYAL_SERVANT, Role.LOYAL_SERVANT,
     Role.LOYAL_SERVANT, Role.ASSASSIN, Role.MORGANA,
     Role.OBERON]).toOption.getD fallbackGame

/-- The quest after `Quest.add_vote` records a team vote: only the
vote dictionary changes. -/
def Quest.withTeamVote (q : Quest) (n : String) (v : VoteType) : Quest :=
  { q with pre_quest_votes := dictInsert q.pre_quest_votes n v }

/-- The record `Quest.add_vote` appends for a team vote: the quest's
number, its leader `ln`, its current team and the cast vote. -/
def teamVoteRecordOf (q : Quest) (ln : String) (v : VoteType) : TeamVoteRecord :=
  { quest_number := q.quest_number, leader := ln, proposed_team := q.team,
    vote := v, quest_result := none }

/-- A player with one more team-vote record. -/
def Player.withTeamRecord (p : Player) (r : TeamVoteRecord) : Player :=
  { p with team_vote_history := p.team_vote_history ++ [r] }

/-- A TEAM_VOTING state one vote short of tabulation: quest 1 proposed
by Alice, four APPROVE votes in, Eve still to vote. -/
def c2Pre : AvalonGame :=
  teamVoteByName (teamVoteByName (teamVoteByName (teamVoteByName
    (proposeByNames testGameStarted "Alice" ["Alice", "Bob"])
    "Alice" VoteType.APPROVE) "Bob" VoteType.APPROVE)
    "Charlie" VoteType.APPROVE) "Dave" VoteType.APPROVE

/-- A player object that is not part of any game roster, for the
foreign-voter scenario. -/
def frankPlayer : Player :=
  { name := "Frank", role := none, team := none,
    team_vote_history := [], quest_vote_history := [] }

/-- Game states reachable from construction: `AvalonGame.init` with a
leader index in `random.randint`'s range, the drivers' one-time start
step on the fresh game, and the four public commands (each of which
returns the unchanged state on error). -/
inductive Reachable : AvalonGame → Prop where
  | init (player_names : List String) (leader_idx : Nat)
      (shuffled_roles : List Role) (g : AvalonGame)
      (hli : leader_idx < player_names.length)
      (h : AvalonGame.init player_names leader_idx shuffled_roles =
        Except.ok g) : Reachable g
  | start (g : AvalonGame) (hg : Reachable g)
      (hph : g.phase = GamePhase.SETUP) : Reachable g.startGame
  | propose (g : AvalonGame) (l : Player) (t : List Player)
      (hg : Reachable g) : Reachable (g.propose_team l t).1
  | teamVote (g : AvalonGame) (p : Player) (v : VoteType)
      (hg : Reachable g) : Reachable (g.vote_for_team p v).1
  | questVote (g : AvalonGame) (p : Player) (v : VoteType)
      (hg : Reachable g) : Reachable (g.vote_on_quest p v).1
  | assassin (g : AvalonGame) (t : Player) (hg : Reachable g) :
      Reachable (g.assassinate t).1

/-- The inductive invariant behind C7: the two quest counters never sum
past 5, and while the game is still being played (any phase before
ASSASSINATION/GAME_END) each counter is at most 2. -/
def GameInv (g : AvalonGame) : Prop :=
  g.succeeded_quests + g.failed_quests ≤ 5 ∧
  (g.phase = GamePhase.ASSASSINATION ∨ g.phase = GamePhase.GAME_END ∨
    (g.succeeded_quests ≤ 2 ∧ g.failed_quests ≤ 2))

/-! ### Claim theorems -/

/-- C3: for a quest where all `required_team_size` team members have cast
quest votes, `process_result` yields FAIL iff the number of FAIL votes is
at least `fails_required`, and SUCCESS otherwise; in particular with
`fails_required = 1` a single FAIL vote yields FAIL, and with
`fails_required = 2` exactly one FAIL yields SUCCESS while exactly two
FAIL votes yield FAIL. -/
theorem quest_result_fail_iff (q : Quest) (players : List Player)
    (h : q.in_quest_votes.length = q.required_team_size) :
    ((q.process_result players).1.result = QuestResult.FAIL ↔
      q.fails_required ≤
        (q.in_quest_votes.filter (fun kv => kv.2 == VoteType.FAIL)).length) ∧
    ((q.process_result players).1.result = QuestResult.SUCCESS ↔
      (q.in_quest_votes.filter (fun kv => kv.2 == VoteType.FAIL)).length <
        q.fails_required) ∧
    (q.fails_required = 1 →
      (q.in_quest_votes.filter (fun kv => kv.2 == VoteType.FAIL)).length = 1 →
      (q.process_result players).1.result = QuestResult.FAIL) ∧
    (q.fails_required = 2 →
      (q.in_quest_votes.filter (fun kv => kv.2 == VoteType.FAIL)).length = 1 →
      (q.process_result players).1.result = QuestResult.SUCCESS) ∧
    (q.fails_required = 2 →
      (q.in_quest_votes.filter (fun kv => kv.2 == VoteType.FAIL)).length = 2 →
      (q.process_result players).1.result = QuestResult.FAIL) := by
  have hne : ¬ q.in_quest_votes.length ≠ q.required_team_size := by
    simp [h]
  simp only [Quest.process_result, if_neg hne]
  set c := (q.in_quest_votes.filter (fun kv => kv.2 == VoteType.FAIL)).length with hc
  by_cases hle : q.fails_required ≤ c
  · refine ⟨by simp [hle], by simp [hle, Nat.not_lt.mpr hle], ?_, ?_, ?_⟩
    · intro _ _; simp [hle]
    · intro h2 h1; omega
    · intro _ _; simp [hle]
  · refine ⟨by simp [hle], by simp [hle, Nat.lt_of_not_le hle], ?_, ?_, ?_⟩
    · intro h1 hcnt; omega
    · intro _ _; simp [hle]
    · intro h2 hcnt; omega

/-- Witness for C3 at `sampleQuest`: its hypothesis holds and a single
FAIL vote with `fails_required = 1` makes the processed result FAIL. -/
theorem quest_result_fail_iff_witness :
    sampleQuest.in_quest_votes.length = sampleQuest.required_team_size ∧
    (sampleQuest.process_result []).1.result = QuestResult.FAIL :=
  ⟨by decide,
    ((quest_result_fail_iff sampleQuest [] (by decide)).2.2.1 (by decide)
      (by decide))⟩

/-- C1 (evaluation at the failing input): from the freshly constructed
five-player fixture game, five consecutive full team-vote rejection
rounds drive the phase to GAME_END with no quest ever started — but
`get_winner` returns GOOD, not EVIL as the claim (and the source's own
`MAX_FAILED_VOTES` comment, "before evil wins") requires. -/
theorem attrition_declares_good_winner :
    attritionGame.phase = GamePhase.GAME_END ∧
    attritionGame.get_winner = some Team.GOOD ∧
    attritionGame.get_winner ≠ some Team.EVIL ∧
    attritionGame.failed_votes_count = 5 ∧
    attritionGame.succeeded_quests = 0 ∧
    attritionGame.failed_quests = 0 ∧
    attritionGame.quests.all
      (fun q => q.result == QuestResult.NOT_STARTED &&
        q.in_quest_votes.isEmpty) = true := by
  refine ⟨rfl, rfl, by decide, rfl, rfl, rfl, rfl⟩

/-- Counterexample to C4: in the concrete run `c4Done`, Alice's
previously-logged record for quest 1 from the rejected first proposal
(leader "Alice", vote REJECT) does not end with merely its
`quest_result` filled in — the processed history contains no record with
that leader and vote at all.  The backfill loop of
`Quest.process_result` removed it and appended a copy of the final
proposal's record in its place. -/
theorem quest_backfill_drops_first_record :
    (let alice := c4Approved.players.headD defaultPlayer;
      alice.name = "Alice" ∧
      alice.team_vote_history.head? = some
        { quest_number := 1, leader := "Alice",
          proposed_team := ["Alice", "Bob"], vote := VoteType.REJECT,
          quest_result := none }) ∧
    (c4Done.quests.headD defaultQuest).result = QuestResult.SUCCESS ∧
    (let alice := c4Done.players.headD defaultPlayer;
      ¬ ({ quest_number := 1, leader := "Alice",
           proposed_team := ["Alice", "Bob"], vote := VoteType.REJECT,
           quest_result := some QuestResult.SUCCESS : TeamVoteRecord }
          ∈ alice.team_vote_history) ∧
      alice.team_vote_history.all
        (fun r => r.leader == "Bob" && r.vote == VoteType.APPROVE)) := by
  refine ⟨⟨rfl, rfl⟩, rfl, by decide, rfl⟩

/-- `List.lookup` misses a key that is not among the keys. -/
theorem lookup_eq_none_of_not_mem {α : Type} (es : List (String × α))
    (k : String) (h : ∀ kv ∈ es, kv.1 ≠ k) : es.lookup k = none := by
  induction es with
  | nil => rfl
  | cons e es ih =>
    have he : e.1 ≠ k := h e (List.mem_cons_self e es)
    have hb : (k == e.1) = false := by
      apply beq_eq_false_iff_ne.mpr
      exact fun hk => he hk.symm
    simp only [List.lookup, hb]
    exact ih (fun kv hkv => h kv (List.mem_cons_of_mem e hkv))

/-- A fold of name-keyed in-place updates over entries with distinct keys
acts on each player as a single lookup-directed update. -/
theorem foldl_update_by_name (F : Player → VoteType → Player)
    (hF : ∀ pl v, (F pl v).name = pl.name)
    (es : List (String × VoteType)) (players : List Player)
    (hnd : (es.map Prod.fst).Nodup) :
    es.foldl (fun ps kv => ps.map (fun pl =>
        if pl.name == kv.1 then F pl kv.2 else pl)) players =
      players.map (fun pl =>
        match es.lookup pl.name with
        | some v => F pl v
        | none => pl) := by
  induction es generalizing players with
  | nil => simp
  | cons e es ih =>
    have hnd' : (es.map Prod.fst).Nodup := hnd.of_cons
    have hkey : ∀ kv ∈ es, kv.1 ≠ e.1 := by
      intro kv hkv heq
      have hh := (List.nodup_cons.mp hnd).1
      exact hh (heq ▸ List.mem_map_of_mem Prod.fst hkv)
    rw [List.foldl_cons, ih _ hnd', List.map_map]
    apply List.map_congr_left
    intro pl _
    by_cases hn : pl.name = e.1
    · have hb : (pl.name == e.1) = true := beq_iff_eq.mpr hn
      have hlk : es.lookup (F pl e.2).name = none := by
        apply lookup_eq_none_of_not_mem
        intro kv hkv
        rw [hF, hn]
        exact hkey kv hkv
      have hlk2 : List.lookup pl.name (e :: es) = some e.2 := by
        simp [List.lookup, hb]
      simp [Function.comp, hb, hlk, hlk2]
    · have hb : (pl.name == e.1) = false := beq_eq_false_iff_ne.mpr hn
      have hlk2 : List.lookup pl.name (e :: es) = es.lookup pl.name := by
        simp [List.lookup, hb]
      simp [Function.comp, hb, hlk2]

/-- A record whose quest number matches after the in-place replacement
carries the replaced result. -/
theorem setQuestResult_spec (qn : Nat) (res : QuestResult)
    (r0 : TeamVoteRecord) :
    (setQuestResult qn res r0).quest_number = qn →
    (setQuestResult qn res r0).quest_result = some res := by
  unfold setQuestResult
  split
  · intro _
    rfl
  · intro h
    rename_i hff
    exact absurd (beq_iff_eq.mpr h) hff

/-- C4 (amended): when a quest with all team votes in is processed, the
combined effect of the two backfill passes on the histories is: a player
who is not a key of `pre_quest_votes` has every record carrying the
quest's number updated in place with the result (other fields and all
other records unchanged); a voter additionally has the *first* record
carrying the quest's number removed and a fresh record built from the
final proposal (final leader, final team, the counted vote, the result)
appended at the end.  Every record for this quest number in the
processed histories carries the result. -/
theorem quest_backfill_characterization (q : Quest) (players : List Player)
    (res : QuestResult)
    (hlen : q.in_quest_votes.length = q.required_team_size)
    (hnd : (q.pre_quest_votes.map Prod.fst).Nodup)
    (hres : (q.process_result players).1.result = res) :
    (gameHistoryBackfill q.quest_number res (q.process_result players).2.1 =
      players.map (fun pl =>
        match q.pre_quest_votes.lookup pl.name with
        | some v =>
          { pl with team_vote_history :=
              ((pl.team_vote_history.eraseP (fun r => r.quest_number == q.quest_number)).map (setQuestResult q.quest_number res)) ++ [backfillRecord q res v] }
        | none =>
          { pl with team_vote_history :=
              pl.team_vote_history.map (setQuestResult q.quest_number res) })) ∧
    (∀ pl ∈ gameHistoryBackfill q.quest_number res
        (q.process_result players).2.1,
      ∀ r ∈ pl.team_vote_history, r.quest_number = q.quest_number →
        r.quest_result = some res) := by
  have hne : ¬ q.in_quest_votes.length ≠ q.required_team_size := by
    simp [hlen]
  have hres' : res = (if q.fails_required ≤
      (q.in_quest_votes.filter (fun kv => kv.2 == VoteType.FAIL)).length
    then QuestResult.FAIL else QuestResult.SUCCESS) := by
    rw [← hres]
    simp [Quest.process_result, if_neg hne]
  constructor
  · simp only [Quest.process_result, if_neg hne, questVoteBackfill]
    rw [← hres', foldl_update_by_name (questBackfillStep q res)
      (fun pl v => rfl) _ _ hnd]
    simp only [gameHistoryBackfill, List.map_map]
    apply List.map_congr_left
    intro pl _
    cases hlk : q.pre_quest_votes.lookup pl.name with
    | none => simp [Function.comp, hlk]
    | some v =>
      have hbf : (backfillRecord q res v).quest_number = q.quest_number := rfl
      simp [Function.comp, hlk, questBackfillStep, setQuestResult, hbf,
        backfillRecord]
  · intro pl hpl r hr hqn
    simp only [Quest.process_result, if_neg hne, questVoteBackfill] at hpl
    rw [← hres', foldl_update_by_name (questBackfillStep q res)
      (fun pl v => rfl) _ _ hnd] at hpl
    simp only [gameHistoryBackfill, List.map_map, List.mem_map] at hpl
    obtain ⟨pl0, -, rfl⟩ := hpl
    simp only [Function.comp] at hr
    cases hlk : q.pre_quest_votes.lookup pl0.name with
    | none =>
      simp only [hlk, List.mem_map] at hr
      obtain ⟨r0, -, rfl⟩ := hr
      exact setQuestResult_spec _ _ _ hqn
    | some v =>
      simp only [hlk, questBackfillStep, List.map_append, List.map_cons,
        List.map_nil, List.mem_append, List.mem_map,
        List.mem_singleton] at hr
      rcases hr with ⟨r0, -, rfl⟩ | rfl
      · exact setQuestResult_spec _ _ _ hqn
      · exact setQuestResult_spec _ _ _ hqn

/-- Witness for the C4 characterization at `sampleQuest` /
`samplePlayers`: all hypotheses hold there and the two-pass backfill has
the described per-player form. -/
theorem quest_backfill_characterization_witness :
    (sampleQuest.in_quest_votes.length = sampleQuest.required_team_size ∧
      (sampleQuest.pre_quest_votes.map Prod.fst).Nodup ∧
      (sampleQuest.process_result samplePlayers).1.result =
        QuestResult.FAIL) ∧
    ((gameHistoryBackfill sampleQuest.quest_number QuestResult.FAIL
        (sampleQuest.process_result samplePlayers).2.1 =
      samplePlayers.map (fun pl =>
        match sampleQuest.pre_quest_votes.lookup pl.name with
        | some v =>
          { pl with team_vote_history :=
              ((pl.team_vote_history.eraseP (fun r => r.quest_number == sampleQuest.quest_number)).map (setQuestResult sampleQuest.quest_number QuestResult.FAIL)) ++ [backfillRecord sampleQuest QuestResult.FAIL v] }
        | none =>
          { pl with team_vote_history :=
              pl.team_vote_history.map (setQuestResult sampleQuest.quest_number QuestResult.FAIL) })) ∧
    (∀ pl ∈ gameHistoryBackfill sampleQuest.quest_number QuestResult.FAIL
        (sampleQuest.process_result samplePlayers).2.1,
      ∀ r ∈ pl.team_vote_history,
        r.quest_number = sampleQuest.quest_number →
        r.quest_result = some QuestResult.FAIL)) :=
  ⟨⟨by decide, by decide, by decide⟩,
    quest_backfill_characterization sampleQuest samplePlayers
      QuestResult.FAIL (by decide) (by decide) (by decide)⟩

/-- Updating a dictionary with entries whose keys are pairwise distinct
and absent from the dictionary appends them in order. -/
theorem dictInsertMany_of_fresh {α : Type} (d es : List (String × α))
    (h1 : ∀ e ∈ es, ∀ kv ∈ d, kv.1 ≠ e.1)
    (h2 : (es.map Prod.fst).Nodup) :
    dictInsertMany d es = d ++ es := by
  induction es generalizing d with
  | nil => simp [dictInsertMany]
  | cons e es ih =>
    have hfresh : d.any (fun kv => kv.1 == e.1) = false := by
      rw [List.any_eq_false]
      intro kv hkv hbeq
      exact h1 e (List.mem_cons_self e es) kv hkv (beq_iff_eq.mp hbeq)
    have step : dictInsert d e.1 e.2 = d ++ [e] := by
      rw [dictInsert, hfresh]
      simp
    have h1' : ∀ e' ∈ es, ∀ kv ∈ d ++ [e], kv.1 ≠ e'.1 := by
      intro e' he' kv hkv
      rcases List.mem_append.mp hkv with hkd | hke
      · exact h1 e' (List.mem_cons_of_mem e he') kv hkd
      · rw [List.mem_singleton] at hke
        subst hke
        intro heq
        exact (List.nodup_cons.mp h2).1
          (heq ▸ List.mem_map_of_mem Prod.fst he')
    calc dictInsertMany d (e :: es)
        = dictInsertMany (dictInsert d e.1 e.2) es := by
          simp [dictInsertMany]
      _ = dictInsertMany (d ++ [e]) es := by rw [step]
      _ = (d ++ [e]) ++ es := ih (d ++ [e]) h1' h2.of_cons
      _ = d ++ (e :: es) := by simp

/-- C5: for a game with consistently assigned roles and distinct player
names, a roster player holding MERLIN sees exactly their own entry
(MERLIN) followed by one entry per EVIL-team player whose role is not
MORDRED, each shown as the generic MINION, and nothing else. -/
theorem merlin_visibility (g : AvalonGame) (p : Player)
    (hnd : (g.players.map Player.name).Nodup)
    (hcons : g.players.all playerConsistent = true)
    (hp : p ∈ g.players)
    (hrole : p.role = some Role.MERLIN) :
    g.get_visible_roles p =
      (p.name, some Role.MERLIN) ::
        (g.players.filter (fun q => q.team == some Team.EVIL &&
            q.role != some Role.MORDRED)).map
          (fun q => (q.name, some Role.MINION)) := by
  have hteam : p.team = some Team.GOOD := by
    have := List.all_eq_true.mp hcons p hp
    rw [playerConsistent, hrole] at this
    exact beq_iff_eq.mp this
  have hkeys : ((g.players.filter (fun q => q.team == some Team.EVIL &&
      q.role != some Role.MORDRED)).map
        (fun q => (q.name, (some Role.MINION : Option Role)))).map
        Prod.fst =
      (g.players.filter (fun q => q.team == some Team.EVIL &&
        q.role != some Role.MORDRED)).map Player.name := by
    simp [List.map_map, Function.comp]
  have h2 : (((g.players.filter (fun q => q.team == some Team.EVIL &&
      q.role != some Role.MORDRED)).map
        (fun q => (q.name, (some Role.MINION : Option Role)))).map
        Prod.fst).Nodup := by
    rw [hkeys]
    exact hnd.sublist ((List.filter_sublist _).map Player.name)
  have h1 : ∀ e ∈ (g.players.filter (fun q => q.team == some Team.EVIL &&
      q.role != some Role.MORDRED)).map
        (fun q => (q.name, (some Role.MINION : Option Role))),
      ∀ kv ∈ [(p.name, p.role)], kv.1 ≠ e.1 := by
    intro e he kv hkv
    rw [List.mem_singleton] at hkv
    subst hkv
    obtain ⟨q, hq, hqe⟩ := List.mem_map.mp he
    subst hqe
    intro heq
    have hqmem := List.mem_of_mem_filter hq
    have hqp : p = q := List.inj_on_of_nodup_map hnd hp hqmem heq
    have hqevil : q.team == some Team.EVIL := by
      have := List.of_mem_filter hq
      exact (Bool.and_eq_true _ _).mp this |>.1
    rw [← hqp, hteam] at hqevil
    exact absurd (beq_iff_eq.mp hqevil) (by simp)
  rw [AvalonGame.get_visible_roles, if_pos hrole,
    dictInsertMany_of_fresh _ _ h1 h2, hrole]
  rfl

/-- Witness for C5 at the five-player fixture: Merlin Alice sees exactly
herself as MERLIN and the two evil players (Dave, Eve) as generic
MINION — the specification's sample scenario. -/
theorem merlin_visibility_witness :
    testGame.get_visible_roles (testGame.players.headD defaultPlayer) =
      [("Alice", some Role.MERLIN), ("Dave", some Role.MINION),
       ("Eve", some Role.MINION)] := by
  rw [merlin_visibility testGame (testGame.players.headD defaultPlayer)
    (by decide) (by decide) (by decide) (by decide)]
  rfl

/-- C6: for a game with consistently assigned roles and distinct player
names, a roster player holding an evil role other than OBERON sees their
own entry followed by one entry per other EVIL-team player whose role is
not OBERON, each with that player's true role — and hence no entry for
any OBERON holder; a roster player holding OBERON sees only their own
entry. -/
theorem evil_visibility (g : AvalonGame) (p : Player) (r : Role)
    (hnd : (g.players.map Player.name).Nodup)
    (hcons : g.players.all playerConsistent = true)
    (hp : p ∈ g.players) :
    (p.role = some r → roleTeam r = Team.EVIL → r ≠ Role.OBERON →
      g.get_visible_roles p =
        (p.name, some r) ::
          (g.players.filter (fun q => q.team == some Team.EVIL &&
              q.role != some Role.OBERON && q.name != p.name)).map
            (fun q => (q.name, q.role))) ∧
    (p.role = some Role.OBERON →
      g.get_visible_roles p = [(p.name, some Role.OBERON)]) := by
  constructor
  · intro hrole hevil hoberon
    have hteam : p.team = some Team.EVIL := by
      have := List.all_eq_true.mp hcons p hp
      rw [playerConsistent, hrole] at this
      rw [beq_iff_eq.mp this, hevil]
    have hmerlin : p.role ≠ some Role.MERLIN := by
      rw [hrole]
      intro hc
      cases Option.some.inj hc
      exact absurd hevil (by decide)
    have hpercival : p.role ≠ some Role.PERCIVAL := by
      rw [hrole]
      intro hc
      cases Option.some.inj hc
      exact absurd hevil (by decide)
    have hcond : p.team = some Team.EVIL ∧ p.role ≠ some Role.OBERON := by
      refine ⟨hteam, ?_⟩
      rw [hrole]
      intro hc
      exact hoberon (Option.some.inj hc)
    have h2 : (((g.players.filter (fun q => q.team == some Team.EVIL &&
        q.role != some Role.OBERON && q.name != p.name)).map
          (fun q => (q.name, q.role))).map Prod.fst).Nodup := by
      have : ((g.players.filter (fun q => q.team == some Team.EVIL &&
          q.role != some Role.OBERON && q.name != p.name)).map
            (fun q => (q.name, q.role))).map Prod.fst =
          (g.players.filter (fun q => q.team == some Team.EVIL &&
            q.role != some Role.OBERON && q.name != p.name)).map
            Player.name := by
        simp [List.map_map, Function.comp]
      rw [this]
      exact hnd.sublist ((List.filter_sublist _).map Player.name)
    have h1 : ∀ e ∈ (g.players.filter (fun q => q.team == some Team.EVIL &&
        q.role != some Role.OBERON && q.name != p.name)).map
          (fun q => (q.name, q.role)),
        ∀ kv ∈ [(p.name, p.role)], kv.1 ≠ e.1 := by
      intro e he kv hkv
      rw [List.mem_singleton] at hkv
      subst hkv
      obtain ⟨q, hq, hqe⟩ := List.mem_map.mp he
      subst hqe
      have hcondq := List.of_mem_filter hq
      have hne : (q.name != p.name) = true := by
        have := (Bool.and_eq_true _ _).mp hcondq
        exact this.2
      intro heq
      exact absurd heq.symm (bne_iff_ne.mp hne)
    rw [AvalonGame.get_visible_roles, if_neg hmerlin, if_neg hpercival,
      if_pos hcond, dictInsertMany_of_fresh _ _ h1 h2, hrole]
    rfl
  · intro hrole
    have hmerlin : p.role ≠ some Role.MERLIN := by
      rw [hrole]
      intro hc
      exact absurd (Option.some.inj hc) (by decide)
    have hpercival : p.role ≠ some Role.PERCIVAL := by
      rw [hrole]
      intro hc
      exact absurd (Option.some.inj hc) (by decide)
    have hcond : ¬ (p.team = some Team.EVIL ∧ p.role ≠ some Role.OBERON) := by
      intro hc
      exact hc.2 hrole
    rw [AvalonGame.get_visible_roles, if_neg hmerlin, if_neg hpercival,
      if_neg hcond, hrole]

/-- Witness for C6 at `oberonGame`: the assassin (P5) sees themself and
Morgana by true role and does not see Oberon; Oberon (P7) sees only
themself. -/
theorem evil_visibility_witness :
    oberonGame.get_visible_roles (oberonGame.players.getD 4 defaultPlayer) =
      [("P5", some Role.ASSASSIN), ("P6", some Role.MORGANA)] ∧
    oberonGame.get_visible_roles (oberonGame.players.getD 6 defaultPlayer) =
      [("P7", some Role.OBERON)] := by
  constructor
  · rw [(evil_visibility oberonGame (oberonGame.players.getD 4 defaultPlayer)
      Role.ASSASSIN (by decide) (by decide) (by decide)).1
      (by decide) (by decide) (by decide)]
    rfl
  · exact (evil_visibility oberonGame (oberonGame.players.getD 6 defaultPlayer)
      Role.OBERON (by decide) (by decide) (by decide)).2 (by decide)

/-- Reading back the slot just written. -/
theorem getD_set_self {α : Type} (l : List α) (n : Nat) (a d : α)
    (h : n < l.length) : (l.set n a).getD n d = a := by
  simp [List.getD_eq_getElem?_getD, List.getElem?_set_self, h]

/-- Writing the current quest and a roster entry leaves
`get_current_quest` reading the written quest. -/
theorem get_current_quest_after_set (g : AvalonGame) (q : Quest)
    (p : Player) (h : g.current_quest_idx < g.quests.length) :
    ((g.setCurrentQuest q).updateRoster p).get_current_quest = q := by
  simp [AvalonGame.get_current_quest, AvalonGame.setCurrentQuest,
    AvalonGame.updateRoster, getD_set_self, h]

/-- `Quest.add_vote` on a team vote with the leader set and a positive
quest number: the dictionary gains the vote and the voter gains the
record of the current proposal. -/
theorem add_vote_team_eq (q : Quest) (p : Player) (v : VoteType) (ln : String)
    (hv : v = VoteType.APPROVE ∨ v = VoteType.REJECT)
    (hld : q.leader = some ln) (hqn : 1 ≤ q.quest_number) :
    q.add_vote p v =
      (q.withTeamVote p.name v,
        p.withTeamRecord (teamVoteRecordOf q ln v), none) := by
  have hqn' : ¬ q.quest_number < 1 := by omega
  have hvkind : ¬ (v ≠ VoteType.APPROVE ∧ v ≠ VoteType.REJECT) := by
    rcases hv with h | h <;> simp [h]
  rw [Quest.add_vote, if_pos hv, hld]
  simp only [Player.add_team_vote, if_neg hvkind, if_neg hqn']
  simp [Quest.withTeamVote, Player.withTeamRecord, teamVoteRecordOf, hld]

/-- C2: when the vote completing the `player_count`-th entry of
`pre_quest_votes` is submitted in TEAM_VOTING, tabulation fires: the
proposal is approved iff the APPROVE count strictly exceeds half the
player count (`2 * approves > player_count`); on approval
`failed_votes_count` resets to 0 and the phase becomes QUEST with quest
and leader unchanged; on rejection `failed_votes_count` and the quest's
`team_vote_counter` each grow by exactly 1, the leader advances by one
position modulo `player_count`, the quest index is unchanged, and the
phase returns to TEAM_BUILDING unless the new `failed_votes_count` has
reached `MAX_FAILED_VOTES = 5`, in which case it becomes GAME_END. -/
theorem team_vote_tabulation (g : AvalonGame) (p : Player)
    (vote : VoteType) (ln : String)
    (hph : g.phase = GamePhase.TEAM_VOTING)
    (hv : vote = VoteType.APPROVE ∨ vote = VoteType.REJECT)
    (hidx : g.current_quest_idx < g.quests.length)
    (hld : (g.get_current_quest).leader = some ln)
    (hqn : 1 ≤ (g.get_current_quest).quest_number)
    (hlast : (dictInsert (g.get_current_quest).pre_quest_votes p.name
      vote).length = g.player_count) :
    (g.vote_for_team p vote).2.2 = none ∧
    (if g.player_count < 2 * ((dictInsert
          (g.get_current_quest).pre_quest_votes p.name vote).filter
          (fun kv => kv.2 == VoteType.APPROVE)).length then
      (g.vote_for_team p vote).1.failed_votes_count = 0 ∧
      (g.vote_for_team p vote).1.phase = GamePhase.QUEST ∧
      (g.vote_for_team p vote).1.current_quest_idx = g.current_quest_idx ∧
      (g.vote_for_team p vote).1.current_leader_idx = g.current_leader_idx
    else
      (g.vote_for_team p vote).1.failed_votes_count =
        g.failed_votes_count + 1 ∧
      ((g.vote_for_team p vote).1.get_current_quest).team_vote_counter =
        (g.get_current_quest).team_vote_counter + 1 ∧
      (g.vote_for_team p vote).1.current_leader_idx =
        (g.current_leader_idx + 1) % g.player_count ∧
      (g.vote_for_team p vote).1.current_quest_idx = g.current_quest_idx ∧
      (if MAX_FAILED_VOTES ≤ g.failed_votes_count + 1 then
        (g.vote_for_team p vote).1.phase = GamePhase.GAME_END
      else
        (g.vote_for_team p vote).1.phase = GamePhase.TEAM_BUILDING)) := by
  have hph' : ¬ g.phase ≠ GamePhase.TEAM_VOTING := by simp [hph]
  have hvkind : ¬ (vote ≠ VoteType.APPROVE ∧ vote ≠ VoteType.REJECT) := by
    rcases hv with h | h <;> simp [h]
  unfold AvalonGame.vote_for_team
  rw [if_neg hph', if_neg hvkind, add_vote_team_eq _ _ _ ln hv hld hqn]
  dsimp only
  simp only [Quest.withTeamVote]
  rw [if_pos hlast]
  unfold AvalonGame.process_team_votes
  rw [get_current_quest_after_set g _ _ hidx]
  dsimp only [AvalonGame.setCurrentQuest, AvalonGame.updateRoster,
    AvalonGame.advance_leader]
  refine ⟨rfl, ?_⟩
  by_cases hA : g.player_count < 2 * ((dictInsert
      (g.get_current_quest).pre_quest_votes p.name vote).filter
      (fun kv => kv.2 == VoteType.APPROVE)).length
  · rw [if_pos hA, if_pos hA]
    refine ⟨rfl, rfl, rfl, rfl⟩
  · rw [if_neg hA, if_neg hA]
    by_cases hM : MAX_FAILED_VOTES ≤ g.failed_votes_count + 1
    · rw [if_pos hM, if_pos hM]
      refine ⟨rfl, ?_, rfl, rfl, rfl⟩
      simp [AvalonGame.get_current_quest, AvalonGame.setCurrentQuest,
        AvalonGame.updateRoster, AvalonGame.advance_leader,
        getD_set_self, hidx]
    · rw [if_neg hM, if_neg hM]
      refine ⟨rfl, ?_, rfl, rfl, rfl⟩
      simp [AvalonGame.get_current_quest, AvalonGame.setCurrentQuest,
        AvalonGame.updateRoster, AvalonGame.advance_leader,
        getD_set_self, hidx]

/-- Witness for C2 at `c2Pre`: Eve's REJECT is the fifth vote; with four
APPROVE votes out of five, the proposal is approved, the phase becomes
QUEST and `failed_votes_count` resets. -/
theorem team_vote_tabulation_witness :
    (c2Pre.phase = GamePhase.TEAM_VOTING ∧
      c2Pre.current_quest_idx < c2Pre.quests.length ∧
      (c2Pre.get_current_quest).leader = some "Alice" ∧
      1 ≤ (c2Pre.get_current_quest).quest_number ∧
      (dictInsert (c2Pre.get_current_quest).pre_quest_votes
        (c2Pre.players.getD 4 defaultPlayer).name
        VoteType.REJECT).length = c2Pre.player_count) ∧
    ((c2Pre.vote_for_team (c2Pre.players.getD 4 defaultPlayer)
        VoteType.REJECT).2.2 = none ∧
      (c2Pre.vote_for_team (c2Pre.players.getD 4 defaultPlayer)
        VoteType.REJECT).1.phase = GamePhase.QUEST ∧
      (c2Pre.vote_for_team (c2Pre.players.getD 4 defaultPlayer)
        VoteType.REJECT).1.failed_votes_count = 0) := by
  have h := team_vote_tabulation c2Pre (c2Pre.players.getD 4 defaultPlayer)
    VoteType.REJECT "Alice" (by decide) (Or.inr rfl) (by decide)
    (by decide) (by decide) (by decide)
  have h2 := h.2
  rw [if_pos (by decide)] at h2
  exact ⟨⟨by decide, by decide, by decide, by decide, by decide⟩,
    h.1, h2.2.1, h2.1⟩

/-- Updating an existing key leaves the dictionary size unchanged. -/
theorem dictInsert_length_mem {α : Type} (d : List (String × α))
    (k : String) (v : α) (h : d.any (fun kv => kv.1 == k) = true) :
    (dictInsert d k v).length = d.length := by
  simp [dictInsert, h]

/-- Updating an existing key makes lookup return the new value. -/
theorem lookup_dictInsert_mem {α : Type} (d : List (String × α))
    (k : String) (v : α) (h : d.any (fun kv => kv.1 == k) = true) :
    (dictInsert d k v).lookup k = some v := by
  rw [dictInsert, if_pos h]
  induction d with
  | nil => simp at h
  | cons e d ih =>
    by_cases he : (e.1 == k) = true
    · have hke : (k == e.1) = true := by
        rw [beq_iff_eq] at he ⊢
        exact he.symm
      rw [List.map_cons, if_pos he]
      simp only [List.lookup, hke]
    · have hne : (e.1 == k) = false := by
        cases hb : (e.1 == k)
        · rfl
        · exact absurd hb he
      have hk : (k == e.1) = false := by
        rw [beq_eq_false_iff_ne] at hne ⊢
        exact fun hkk => hne hkk.symm
      have htail : d.any (fun kv => kv.1 == k) = true := by
        rcases List.any_eq_true.mp h with ⟨kv, hkv, hkvk⟩
        rcases List.mem_cons.mp hkv with rfl | hmem
        · exact absurd hkvk he
        · exact List.any_eq_true.mpr ⟨kv, hmem, hkvk⟩
      rw [List.map_cons, if_neg he]
      simp only [List.lookup, hk]
      exact ih htail

/-- C9: during TEAM_VOTING, a second team vote by a player whose name is
already a key of `pre_quest_votes`, cast while fewer than `player_count`
entries exist, succeeds without error: the counted vote for that player
is replaced (the dictionary does not grow), no tabulation fires (the
phase stays TEAM_VOTING), and one more record of the current proposal is
appended to the voter's history — both on the returned voter object and
on every roster entry carrying the voter's name. -/
theorem revote_replaces_and_logs (g : AvalonGame) (p : Player)
    (v : VoteType) (ln : String)
    (hph : g.phase = GamePhase.TEAM_VOTING)
    (hv : v = VoteType.APPROVE ∨ v = VoteType.REJECT)
    (hidx : g.current_quest_idx < g.quests.length)
    (hld : (g.get_current_quest).leader = some ln)
    (hqn : 1 ≤ (g.get_current_quest).quest_number)
    (hprev : (g.get_current_quest).pre_quest_votes.any
      (fun kv => kv.1 == p.name) = true)
    (hcount : (g.get_current_quest).pre_quest_votes.length <
      g.player_count) :
    (g.vote_for_team p v).2.2 = none ∧
    ((g.vote_for_team p v).1.get_current_quest).pre_quest_votes.length =
      (g.get_current_quest).pre_quest_votes.length ∧
    ((g.vote_for_team p v).1.get_current_quest).pre_quest_votes.lookup
      p.name = some v ∧
    (g.vote_for_team p v).1.phase = GamePhase.TEAM_VOTING ∧
    (g.vote_for_team p v).2.1.team_vote_history =
      p.team_vote_history ++ [teamVoteRecordOf (g.get_current_quest) ln v] ∧
    (∀ pl ∈ (g.vote_for_team p v).1.players, pl.name = p.name →
      pl.team_vote_history =
        p.team_vote_history ++ [teamVoteRecordOf (g.get_current_quest) ln v]) := by
  have hph' : ¬ g.phase ≠ GamePhase.TEAM_VOTING := by simp [hph]
  have hvkind : ¬ (v ≠ VoteType.APPROVE ∧ v ≠ VoteType.REJECT) := by
    rcases hv with h | h <;> simp [h]
  have hlen : (dictInsert (g.get_current_quest).pre_quest_votes p.name
      v).length = (g.get_current_quest).pre_quest_votes.length :=
    dictInsert_length_mem _ _ _ hprev
  have hne : ¬ ((g.get_current_quest.withTeamVote p.name
      v).pre_quest_votes.length = g.player_count) := by
    rw [Quest.withTeamVote]
    dsimp only
    omega
  unfold AvalonGame.vote_for_team
  rw [if_neg hph', if_neg hvkind, add_vote_team_eq _ _ _ ln hv hld hqn]
  dsimp only
  rw [if_neg hne]
  dsimp only [AvalonGame.setCurrentQuest, AvalonGame.updateRoster]
  refine ⟨rfl, ?_, ?_, hph, rfl, ?_⟩
  · rw [show (∀ (gg : AvalonGame), gg.get_current_quest =
      gg.quests.getD gg.current_quest_idx defaultQuest) from
      fun gg => rfl]
    dsimp only
    rw [getD_set_self _ _ _ _ hidx]
    exact hlen
  · rw [show (∀ (gg : AvalonGame), gg.get_current_quest =
      gg.quests.getD gg.current_quest_idx defaultQuest) from
      fun gg => rfl]
    dsimp only
    rw [getD_set_self _ _ _ _ hidx]
    exact lookup_dictInsert_mem _ _ _ hprev
  · intro pl hpl hname
    rcases List.mem_map.mp hpl with ⟨pl0, _, rfl⟩
    by_cases hb : (pl0.name == (p.withTeamRecord
        (teamVoteRecordOf g.get_current_quest ln v)).name) = true
    · rw [if_pos hb]
      rfl
    · rw [if_neg hb] at hname ⊢
      exfalso
      apply hb
      rw [Player.withTeamRecord]
      exact beq_iff_eq.mpr hname

/-- Inserting a fresh key appends the pair at the end. -/
theorem dictInsert_fresh {α : Type} (d : List (String × α)) (k : String)
    (v : α) (h : d.any (fun kv => kv.1 == k) = false) :
    dictInsert d k v = d ++ [(k, v)] := by
  rw [dictInsert, if_neg]
  simp [h]

/-- Lookup of a key present only in the appended singleton. -/
theorem lookup_append_single {α : Type} (d : List (String × α))
    (k : String) (v : α) (h : ∀ kv ∈ d, (kv.1 == k) = false) :
    (d ++ [(k, v)]).lookup k = some v := by
  induction d with
  | nil => simp [List.lookup]
  | cons e d ih =>
    have he := h e (List.mem_cons_self e d)
    have hk : (k == e.1) = false := by
      rw [beq_eq_false_iff_ne] at he ⊢
      exact fun hkk => he hkk.symm
    simp only [List.cons_append, List.lookup, hk]
    exact ih (fun kv hkv => h kv (List.mem_cons_of_mem e hkv))

/-- Team-vote tabulation never touches the roster. -/
theorem process_team_votes_players (g : AvalonGame) :
    (g.process_team_votes).players = g.players := by
  unfold AvalonGame.process_team_votes
  dsimp only [AvalonGame.setCurrentQuest, AvalonGame.advance_leader]
  split_ifs <;> rfl

/-- Team-vote tabulation always leaves TEAM_VOTING. -/
theorem process_team_votes_phase (g : AvalonGame) :
    (g.process_team_votes).phase ≠ GamePhase.TEAM_VOTING := by
  unfold AvalonGame.process_team_votes
  dsimp only [AvalonGame.setCurrentQuest, AvalonGame.advance_leader]
  split_ifs <;> simp

/-- Writing the current quest slot and reading it back. -/
theorem get_current_quest_set (g : AvalonGame) (q : Quest)
    (h : g.current_quest_idx < g.quests.length) :
    (g.setCurrentQuest q).get_current_quest = q := by
  simp [AvalonGame.get_current_quest, AvalonGame.setCurrentQuest,
    getD_set_self, h]

/-- Team-vote tabulation keeps the current quest vote dictionary. -/
theorem process_team_votes_pre (g : AvalonGame)
    (h : g.current_quest_idx < g.quests.length) :
    ((g.process_team_votes).get_current_quest).pre_quest_votes =
      (g.get_current_quest).pre_quest_votes := by
  unfold AvalonGame.process_team_votes
  dsimp only
  split_ifs <;>
    simp [AvalonGame.get_current_quest, AvalonGame.setCurrentQuest,
      AvalonGame.advance_leader, getD_set_self, h]

/-- C10: `vote_for_team` performs no membership check on the voter:
during TEAM_VOTING a vote from a player object whose name is not among
the game's players (and not yet a key of `pre_quest_votes`) is accepted
without error, is recorded in `pre_quest_votes` and in that object's own
history, leaves the roster untouched, and counts toward the
`player_count` threshold: when it completes the count, tabulation fires
and the phase leaves TEAM_VOTING. -/
theorem foreign_voter_accepted (g : AvalonGame) (p : Player)
    (v : VoteType) (ln : String)
    (hph : g.phase = GamePhase.TEAM_VOTING)
    (hv : v = VoteType.APPROVE ∨ v = VoteType.REJECT)
    (hidx : g.current_quest_idx < g.quests.length)
    (hld : (g.get_current_quest).leader = some ln)
    (hqn : 1 ≤ (g.get_current_quest).quest_number)
    (hfresh : (g.get_current_quest).pre_quest_votes.any
      (fun kv => kv.1 == p.name) = false)
    (hname : g.players.all (fun pl => pl.name != p.name) = true) :
    (g.vote_for_team p v).2.2 = none ∧
    ((g.vote_for_team p v).1.get_current_quest).pre_quest_votes.length =
      (g.get_current_quest).pre_quest_votes.length + 1 ∧
    ((g.vote_for_team p v).1.get_current_quest).pre_quest_votes.lookup
      p.name = some v ∧
    (g.vote_for_team p v).1.players = g.players ∧
    (g.vote_for_team p v).2.1.team_vote_history =
      p.team_vote_history ++ [teamVoteRecordOf (g.get_current_quest) ln v] ∧
    (if (g.get_current_quest).pre_quest_votes.length + 1 = g.player_count
     then (g.vote_for_team p v).1.phase ≠ GamePhase.TEAM_VOTING
     else (g.vote_for_team p v).1.phase = GamePhase.TEAM_VOTING) := by
  have hph' : ¬ g.phase ≠ GamePhase.TEAM_VOTING := by simp [hph]
  have hvkind : ¬ (v ≠ VoteType.APPROVE ∧ v ≠ VoteType.REJECT) := by
    rcases hv with h | h <;> simp [h]
  have hins : dictInsert (g.get_current_quest).pre_quest_votes p.name v =
      (g.get_current_quest).pre_quest_votes ++ [(p.name, v)] :=
    dictInsert_fresh _ _ _ hfresh
  have hkeys : ∀ kv ∈ (g.get_current_quest).pre_quest_votes,
      (kv.1 == p.name) = false := by
    intro kv hkv
    have hnot := List.any_eq_false.mp hfresh kv hkv
    cases hb : (kv.1 == p.name)
    · rfl
    · exact absurd hb hnot
  have hroster : ∀ (pnew : Player), pnew.name = p.name →
      g.players.map (fun pl => if pl.name == pnew.name then pnew else pl) =
      g.players := by
    intro pnew hpn
    have hall : ∀ pl ∈ g.players,
        (fun pl => if pl.name == pnew.name then pnew else pl) pl = pl := by
      intro pl hpl
      have hme := List.all_eq_true.mp hname pl hpl
      rw [bne_iff_ne] at hme
      have hbf : (pl.name == pnew.name) = false := by
        rw [hpn, beq_eq_false_iff_ne]
        exact hme
      simp [hbf]
    rw [List.map_congr_left hall, List.map_id']
  unfold AvalonGame.vote_for_team
  rw [if_neg hph', if_neg hvkind, add_vote_team_eq _ _ _ ln hv hld hqn]
  dsimp only
  simp only [Quest.withTeamVote]
  by_cases hthr : (g.get_current_quest).pre_quest_votes.length + 1 =
      g.player_count
  · have hcond : (dictInsert (g.get_current_quest).pre_quest_votes p.name
        v).length = g.player_count := by
      rw [hins]
      simpa using hthr
    rw [if_pos hcond, if_pos hthr]
    have hg1idx : (((g.setCurrentQuest { g.get_current_quest with
        pre_quest_votes := dictInsert (g.get_current_quest).pre_quest_votes
          p.name v }).updateRoster (p.withTeamRecord
        (teamVoteRecordOf g.get_current_quest ln v)))).current_quest_idx <
        (((g.setCurrentQuest { g.get_current_quest with
        pre_quest_votes := dictInsert (g.get_current_quest).pre_quest_votes
          p.name v }).updateRoster (p.withTeamRecord
        (teamVoteRecordOf g.get_current_quest ln v)))).quests.length := by
      dsimp only [AvalonGame.setCurrentQuest, AvalonGame.updateRoster]
      simpa using hidx
    refine ⟨rfl, ?_, ?_, ?_, rfl, ?_⟩
    · rw [process_team_votes_pre _ hg1idx,
        get_current_quest_after_set g _ _ hidx]
      dsimp only
      rw [hins]
      simp
    · rw [process_team_votes_pre _ hg1idx,
        get_current_quest_after_set g _ _ hidx]
      dsimp only
      rw [hins]
      exact lookup_append_single _ _ _ hkeys
    · rw [process_team_votes_players]
      dsimp only [AvalonGame.setCurrentQuest, AvalonGame.updateRoster]
      exact hroster _ rfl
    · exact process_team_votes_phase _
  · have hcond : ¬ ((dictInsert (g.get_current_quest).pre_quest_votes
        p.name v).length = g.player_count) := by
      rw [hins]
      simpa using hthr
    rw [if_neg hcond, if_neg hthr]
    refine ⟨rfl, ?_, ?_, ?_, rfl, ?_⟩
    · rw [get_current_quest_after_set g _ _ hidx]
      dsimp only
      rw [hins]
      simp
    · rw [get_current_quest_after_set g _ _ hidx]
      dsimp only
      rw [hins]
      exact lookup_append_single _ _ _ hkeys
    · dsimp only [AvalonGame.setCurrentQuest, AvalonGame.updateRoster]
      exact hroster _ rfl
    · exact hph

/-- Witness for C9 at `c2Pre`: Dave already voted APPROVE; his REJECT
re-vote is accepted, replaces his counted vote, does not grow the
dictionary and does not fire tabulation. -/
theorem revote_replaces_and_logs_witness :
    (c2Pre.phase = GamePhase.TEAM_VOTING ∧
      (c2Pre.get_current_quest).pre_quest_votes.any
        (fun kv => kv.1 == (c2Pre.players.getD 3 defaultPlayer).name) = true ∧
      (c2Pre.get_current_quest).pre_quest_votes.length <
        c2Pre.player_count) ∧
    ((c2Pre.vote_for_team (c2Pre.players.getD 3 defaultPlayer)
        VoteType.REJECT).2.2 = none ∧
      ((c2Pre.vote_for_team (c2Pre.players.getD 3 defaultPlayer)
          VoteType.REJECT).1.get_current_quest).pre_quest_votes.length =
        (c2Pre.get_current_quest).pre_quest_votes.length ∧
      ((c2Pre.vote_for_team (c2Pre.players.getD 3 defaultPlayer)
          VoteType.REJECT).1.get_current_quest).pre_quest_votes.lookup
        (c2Pre.players.getD 3 defaultPlayer).name = some VoteType.REJECT ∧
      (c2Pre.vote_for_team (c2Pre.players.getD 3 defaultPlayer)
        VoteType.REJECT).1.phase = GamePhase.TEAM_VOTING) := by
  have h := revote_replaces_and_logs c2Pre
    (c2Pre.players.getD 3 defaultPlayer) VoteType.REJECT "Alice"
    (by decide) (Or.inr rfl) (by decide) (by decide) (by decide)
    (by decide) (by decide)
  exact ⟨⟨by decide, by decide, by decide⟩,
    h.1, h.2.1, h.2.2.1, h.2.2.2.1⟩

/-- Witness for C10 at `c2Pre`: Frank is not among the five players, yet
his APPROVE is accepted, recorded, leaves the roster untouched, and —
being the fifth distinct vote — fires tabulation. -/
theorem foreign_voter_accepted_witness :
    (c2Pre.phase = GamePhase.TEAM_VOTING ∧
      c2Pre.players.all (fun pl => pl.name != frankPlayer.name) = true ∧
      (c2Pre.get_current_quest).pre_quest_votes.length + 1 =
        c2Pre.player_count) ∧
    ((c2Pre.vote_for_team frankPlayer VoteType.APPROVE).2.2 = none ∧
      ((c2Pre.vote_for_team frankPlayer
          VoteType.APPROVE).1.get_current_quest).pre_quest_votes.length =
        (c2Pre.get_current_quest).pre_quest_votes.length + 1 ∧
      (c2Pre.vote_for_team frankPlayer VoteType.APPROVE).1.players =
        c2Pre.players ∧
      (c2Pre.vote_for_team frankPlayer VoteType.APPROVE).1.phase ≠
        GamePhase.TEAM_VOTING) := by
  have h := foreign_voter_accepted c2Pre frankPlayer VoteType.APPROVE
    "Alice" (by decide) (Or.inl rfl) (by decide) (by decide) (by decide)
    (by decide) (by decide)
  have h6 := h.2.2.2.2.2
  rw [if_pos (by decide)] at h6
  exact ⟨⟨by decide, by decide, by decide⟩, h.1, h.2.1, h.2.2.2.1, h6⟩

/-- Writing back the value read leaves the list unchanged. -/
theorem set_getD_self {α : Type} (l : List α) (n : Nat) (d : α) :
    l.set n (l.getD n d) = l := by
  induction l generalizing n with
  | nil => rfl
  | cons a l ih =>
    cases n with
    | zero => rfl
    | succ m =>
      show a :: l.set m (l.getD m d) = a :: l
      rw [ih]

/-- Writing the current quest back unchanged is a no-op. -/
theorem setCurrentQuest_current (g : AvalonGame) :
    g.setCurrentQuest (g.get_current_quest) = g := by
  unfold AvalonGame.setCurrentQuest AvalonGame.get_current_quest
  rw [set_getD_self]

/-- Every error of `propose_team` (wrong phase, non-leader, wrong team
size, duplicate members) leaves the state unchanged. -/
theorem propose_team_error_frame (g : AvalonGame) (l : Player)
    (t : List Player) (e : GameError)
    (herr : (g.propose_team l t).2 = some e) :
    (g.propose_team l t).1 = g := by
  unfold AvalonGame.propose_team at herr ⊢
  unfold Quest.set_team at herr ⊢
  split_ifs at herr ⊢ <;>
    first
      | rfl
      | exact setCurrentQuest_current g

/-- The wrong-phase and wrong-vote-kind errors of `vote_for_team` leave
the state unchanged. -/
theorem vote_for_team_error_frame (g : AvalonGame) (p : Player)
    (v : VoteType) (e : GameError)
    (herr : (g.vote_for_team p v).2.2 = some e)
    (hkind : e = GameError.wrongPhase ∨ e = GameError.badTeamVoteKind) :
    (g.vote_for_team p v).1 = g := by
  unfold AvalonGame.vote_for_team at herr ⊢
  unfold Quest.add_vote at herr ⊢
  unfold Player.add_team_vote at herr ⊢
  split_ifs at herr ⊢ <;>
    first
      | rfl
      | tauto
      | (cases hld : (g.get_current_quest).leader <;>
          (try simp only [hld] at herr) <;>
          (try split at herr) <;>
          rcases hkind with rfl | rfl <;> simp at herr)

/-- The wrong-phase, wrong-vote-kind, good-cannot-fail and
non-team-member errors of `vote_on_quest` leave the state unchanged. -/
theorem vote_on_quest_error_frame (g : AvalonGame) (p : Player)
    (v : VoteType) (e : GameError)
    (herr : (g.vote_on_quest p v).2.2 = some e)
    (hkind : e = GameError.wrongPhase ∨ e = GameError.badQuestVoteKind ∨
      e = GameError.goodCannotFail ∨ e = GameError.notTeamMember) :
    (g.vote_on_quest p v).1 = g := by
  unfold AvalonGame.vote_on_quest at herr ⊢
  by_cases h1 : g.phase ≠ GamePhase.QUEST
  · rw [if_pos h1]
  · rw [if_neg h1] at herr ⊢
    by_cases h2 : v ≠ VoteType.SUCCESS ∧ v ≠ VoteType.FAIL
    · rw [if_pos h2]
    · rw [if_neg h2] at herr ⊢
      by_cases h3 : v = VoteType.FAIL ∧ p.team ≠ some Team.EVIL
      · rw [if_pos h3]
      · rw [if_neg h3] at herr ⊢
        by_cases h4 : ¬ (g.get_current_quest).team.contains p.name
        · rw [if_pos h4]
        · rw [if_neg h4] at herr ⊢
          exfalso
          have hv : v = VoteType.SUCCESS ∨ v = VoteType.FAIL := by tauto
          have hAR : ¬ (v = VoteType.APPROVE ∨ v = VoteType.REJECT) := by
            rcases hv with rfl | rfl <;> simp
          rw [Quest.add_vote, if_neg hAR, if_pos hv, if_neg h4,
            Player.add_quest_vote, if_neg h2] at herr
          by_cases h5 : (g.get_current_quest).quest_number < 1
          · rw [if_pos h5] at herr
            dsimp only at herr
            rcases hkind with rfl | rfl | rfl | rfl <;> simp at herr
          · rw [if_neg h5] at herr
            dsimp only at herr
            split at herr
            · rename_i hfull
              rw [Quest.process_result] at herr
              rw [if_neg (by simp [hfull])] at herr
              dsimp only at herr
              exact Option.noConfusion herr
            · dsimp only at herr
              exact Option.noConfusion herr

/-- Every error of `assassinate` leaves the state unchanged. -/
theorem assassinate_error_frame (g : AvalonGame) (t : Player)
    (e : GameError) (herr : (g.assassinate t).2 = some e) :
    (g.assassinate t).1 = g := by
  unfold AvalonGame.assassinate at herr ⊢
  split_ifs at herr ⊢ <;> rfl

/-- C8: every public command invocation that raises one of the
validation errors the engine defines — wrong phase, non-leader proposer,
wrong vote kind, good player voting FAIL, non-team-member quest vote,
wrong team size, duplicate team members (and, for `assassinate`, a
missing assassin) — returns the game state exactly as it was: the
checks all run before any mutation. -/
theorem errors_leave_state_unchanged :
    (∀ (g : AvalonGame) (l : Player) (t : List Player) (e : GameError),
      (g.propose_team l t).2 = some e → (g.propose_team l t).1 = g) ∧
    (∀ (g : AvalonGame) (p : Player) (v : VoteType) (e : GameError),
      (g.vote_for_team p v).2.2 = some e →
      (e = GameError.wrongPhase ∨ e = GameError.badTeamVoteKind) →
      (g.vote_for_team p v).1 = g) ∧
    (∀ (g : AvalonGame) (p : Player) (v : VoteType) (e : GameError),
      (g.vote_on_quest p v).2.2 = some e →
      (e = GameError.wrongPhase ∨ e = GameError.badQuestVoteKind ∨
        e = GameError.goodCannotFail ∨ e = GameError.notTeamMember) →
      (g.vote_on_quest p v).1 = g) ∧
    (∀ (g : AvalonGame) (t : Player) (e : GameError),
      (g.assassinate t).2 = some e → (g.assassinate t).1 = g) :=
  ⟨propose_team_error_frame, vote_for_team_error_frame,
    vote_on_quest_error_frame, assassinate_error_frame⟩

/-- Witness for C8: on the freshly constructed fixture game (phase
SETUP) each of the four commands raises the wrong-phase error and the
state is exactly the input state. -/
theorem errors_leave_state_unchanged_witness :
    ((testGame.propose_team defaultPlayer []).2 =
        some GameError.wrongPhase ∧
      (testGame.propose_team defaultPlayer []).1 = testGame) ∧
    ((testGame.vote_for_team defaultPlayer VoteType.APPROVE).2.2 =
        some GameError.wrongPhase ∧
      (testGame.vote_for_team defaultPlayer VoteType.APPROVE).1 =
        testGame) ∧
    ((testGame.vote_on_quest defaultPlayer VoteType.SUCCESS).2.2 =
        some GameError.wrongPhase ∧
      (testGame.vote_on_quest defaultPlayer VoteType.SUCCESS).1 =
        testGame) ∧
    ((testGame.assassinate defaultPlayer).2 = some GameError.wrongPhase ∧
      (testGame.assassinate defaultPlayer).1 = testGame) :=
  ⟨⟨by decide, errors_leave_state_unchanged.1 testGame defaultPlayer []
      GameError.wrongPhase (by decide)⟩,
    ⟨by decide, errors_leave_state_unchanged.2.1 testGame defaultPlayer
      VoteType.APPROVE GameError.wrongPhase (by decide) (Or.inl rfl)⟩,
    ⟨by decide, errors_leave_state_unchanged.2.2.1 testGame defaultPlayer
      VoteType.SUCCESS GameError.wrongPhase (by decide) (Or.inl rfl)⟩,
    ⟨by decide, errors_leave_state_unchanged.2.2.2 testGame defaultPlayer
      GameError.wrongPhase (by decide)⟩⟩

/-- The invariant only reads the two counters and the phase. -/
theorem gameInv_of_fields (g g' : AvalonGame)
    (hs : g'.succeeded_quests = g.succeeded_quests)
    (hf : g'.failed_quests = g.failed_quests)
    (hp : g'.phase = g.phase) (h : GameInv g) : GameInv g' := by
  unfold GameInv at h ⊢
  rw [hs, hf, hp]
  exact h

/-- Tabulating team votes from a mid-game state keeps the invariant:
the counters are untouched and the possible phases are QUEST,
TEAM_BUILDING and GAME_END. -/
theorem gameInv_process_team_votes (g : AvalonGame)
    (hs : g.succeeded_quests ≤ 2) (hf : g.failed_quests ≤ 2) :
    GameInv g.process_team_votes := by
  unfold AvalonGame.process_team_votes
  dsimp only [AvalonGame.setCurrentQuest, AvalonGame.advance_leader]
  split_ifs
  · exact ⟨by dsimp only; omega, Or.inr (Or.inr ⟨hs, hf⟩)⟩
  · exact ⟨by dsimp only; omega, Or.inr (Or.inl rfl)⟩
  · exact ⟨by dsimp only; omega, Or.inr (Or.inr ⟨hs, hf⟩)⟩

/-- Finishing a quest keeps the invariant as long as the counters
already sum to at most 5: the continue branch itself checks both
counters are below 3. -/
theorem gameInv_process_quest_result (g : AvalonGame)
    (h5 : g.succeeded_quests + g.failed_quests ≤ 5) :
    GameInv g.process_quest_result := by
  unfold AvalonGame.process_quest_result
  dsimp only [AvalonGame.setCurrentQuest, AvalonGame.advance_leader]
  split_ifs with h1 h2
  · exact ⟨by dsimp only; omega, Or.inl rfl⟩
  · exact ⟨by dsimp only; omega, Or.inr (Or.inl rfl)⟩
  · exact ⟨by dsimp only; omega, Or.inr (Or.inr ⟨by dsimp only; omega, by dsimp only; omega⟩)⟩

/-- `propose_team` either leaves the state unchanged or, from
TEAM_BUILDING, moves to TEAM_VOTING with the counters untouched. -/
theorem propose_team_cases (g : AvalonGame) (l : Player)
    (t : List Player) :
    (g.propose_team l t).1 = g ∨
    (g.phase = GamePhase.TEAM_BUILDING ∧
      (g.propose_team l t).1.succeeded_quests = g.succeeded_quests ∧
      (g.propose_team l t).1.failed_quests = g.failed_quests ∧
      (g.propose_team l t).1.phase = GamePhase.TEAM_VOTING) := by
  unfold AvalonGame.propose_team Quest.set_team
  split_ifs with h1 h2 h3 h4
  · exact Or.inl rfl
  · exact Or.inl rfl
  · exact Or.inl (setCurrentQuest_current g)
  · exact Or.inl (setCurrentQuest_current g)
  · refine Or.inr ⟨by tauto, ?_, ?_, ?_⟩ <;>
      simp [AvalonGame.setCurrentQuest]

/-- `assassinate` either leaves the state unchanged or moves to
GAME_END with the counters untouched. -/
theorem assassinate_cases (g : AvalonGame) (t : Player) :
    (g.assassinate t).1 = g ∨
    ((g.assassinate t).1.succeeded_quests = g.succeeded_quests ∧
      (g.assassinate t).1.failed_quests = g.failed_quests ∧
      (g.assassinate t).1.phase = GamePhase.GAME_END) := by
  unfold AvalonGame.assassinate
  split_ifs
  · exact Or.inl rfl
  · exact Or.inl rfl
  · exact Or.inr ⟨rfl, rfl, rfl⟩

/-- `vote_for_team` either leaves counters and phase unchanged or, from
TEAM_VOTING, tabulates from a state with the same counters. -/
theorem vote_for_team_cases (g : AvalonGame) (p : Player) (v : VoteType) :
    ((g.vote_for_team p v).1.succeeded_quests = g.succeeded_quests ∧
      (g.vote_for_team p v).1.failed_quests = g.failed_quests ∧
      (g.vote_for_team p v).1.phase = g.phase) ∨
    (g.phase = GamePhase.TEAM_VOTING ∧ ∃ gmid : AvalonGame,
      (g.vote_for_team p v).1 = gmid.process_team_votes ∧
      gmid.succeeded_quests = g.succeeded_quests ∧
      gmid.failed_quests = g.failed_quests) := by
  unfold AvalonGame.vote_for_team
  split_ifs with h1 h2
  · exact Or.inl ⟨rfl, rfl, rfl⟩
  · exact Or.inl ⟨rfl, rfl, rfl⟩
  · rcases hav : (g.get_current_quest).add_vote p v with ⟨q', p', err⟩
    dsimp only
    cases err with
    | some e =>
      dsimp only [AvalonGame.setCurrentQuest, AvalonGame.updateRoster]
      exact Or.inl ⟨rfl, rfl, rfl⟩
    | none =>
      by_cases hlen : q'.pre_quest_votes.length = g.player_count
      · rw [if_pos hlen]
        refine Or.inr ⟨by tauto, ?_⟩
        refine ⟨(g.setCurrentQuest q').updateRoster p', rfl, ?_, ?_⟩ <;>
          dsimp only [AvalonGame.setCurrentQuest, AvalonGame.updateRoster]
      · rw [if_neg hlen]
        dsimp only [AvalonGame.setCurrentQuest, AvalonGame.updateRoster]
        exact Or.inl ⟨rfl, rfl, rfl⟩

/-- `vote_on_quest` either leaves counters and phase unchanged or, from
QUEST, finishes the quest: exactly one counter grows by one before
`_process_quest_result` runs. -/
theorem vote_on_quest_cases (g : AvalonGame) (p : Player) (v : VoteType) :
    ((g.vote_on_quest p v).1.succeeded_quests = g.succeeded_quests ∧
      (g.vote_on_quest p v).1.failed_quests = g.failed_quests ∧
      (g.vote_on_quest p v).1.phase = g.phase) ∨
    (g.phase = GamePhase.QUEST ∧ ∃ (gmid : AvalonGame) (s f : Nat),
      (g.vote_on_quest p v).1 = gmid.process_quest_result ∧
      gmid.succeeded_quests = g.succeeded_quests + s ∧
      gmid.failed_quests = g.failed_quests + f ∧ s + f ≤ 1) := by
  unfold AvalonGame.vote_on_quest
  split_ifs with h1 h2 h3 h4
  case pos => exact Or.inl ⟨rfl, rfl, rfl⟩
  case pos => exact Or.inl ⟨rfl, rfl, rfl⟩
  case pos => exact Or.inl ⟨rfl, rfl, rfl⟩
  case neg => exact Or.inl ⟨rfl, rfl, rfl⟩
  case pos =>
    rcases hav : (g.get_current_quest).add_vote p v with ⟨q', p', err⟩
    dsimp only
    cases err with
    | some e =>
      dsimp only [AvalonGame.setCurrentQuest, AvalonGame.updateRoster]
      exact Or.inl ⟨rfl, rfl, rfl⟩
    | none =>
      by_cases hlen : q'.in_quest_votes.length = q'.required_team_size
      · rw [if_pos hlen]
        rcases hpr : q'.process_result
            ((g.setCurrentQuest q').updateRoster p').players with
          ⟨q2, players2, err2⟩
        dsimp only
        cases err2 with
        | some e =>
          dsimp only [AvalonGame.setCurrentQuest, AvalonGame.updateRoster]
          exact Or.inl ⟨rfl, rfl, rfl⟩
        | none =>
          refine Or.inr ⟨by tauto, ?_⟩
          refine ⟨_, if q2.result = QuestResult.SUCCESS then 1 else 0,
            if q2.result = QuestResult.FAIL then 1 else 0, rfl, ?_, ?_, ?_⟩
          · dsimp only [AvalonGame.setCurrentQuest, AvalonGame.updateRoster]
          · dsimp only [AvalonGame.setCurrentQuest, AvalonGame.updateRoster]
          · split_ifs <;> first | omega | simp_all
      · rw [if_neg hlen]
        dsimp only [AvalonGame.setCurrentQuest, AvalonGame.updateRoster]
        exact Or.inl ⟨rfl, rfl, rfl⟩

/-- A successfully constructed game starts at SETUP with zero
counters. -/
theorem init_fields (player_names : List String) (leader_idx : Nat)
    (shuffled_roles : List Role) (g : AvalonGame)
    (h : AvalonGame.init player_names leader_idx shuffled_roles =
      Except.ok g) :
    g.succeeded_quests = 0 ∧ g.failed_quests = 0 ∧
      g.phase = GamePhase.SETUP := by
  unfold AvalonGame.init at h
  split_ifs at h
  injection h with h
  subst h
  exact ⟨rfl, rfl, rfl⟩

/-- Every reachable state satisfies the inductive invariant. -/
theorem reachable_gameInv (g : AvalonGame) (h : Reachable g) :
    GameInv g := by
  induction h with
  | init names li roles g hli hok =>
    obtain ⟨hs, hf, hp⟩ := init_fields names li roles g hok
    exact ⟨by omega, Or.inr (Or.inr ⟨by omega, by omega⟩)⟩
  | start g hg hph ih =>
    rcases ih.2 with hp | hp | hp
    · rw [hph] at hp
      exact absurd hp (by decide)
    · rw [hph] at hp
      exact absurd hp (by decide)
    · exact ⟨ih.1, Or.inr (Or.inr hp)⟩
  | propose g l t hg ih =>
    rcases propose_team_cases g l t with hc | ⟨hphase, hs, hf, hp⟩
    · rw [hc]
      exact ih
    · refine ⟨by rw [hs, hf]; exact ih.1, Or.inr (Or.inr ?_)⟩
      rw [hs, hf]
      rcases ih.2 with hp' | hp' | hp'
      · rw [hphase] at hp'
        exact absurd hp' (by decide)
      · rw [hphase] at hp'
        exact absurd hp' (by decide)
      · exact hp'
  | teamVote g p v hg ih =>
    rcases vote_for_team_cases g p v with ⟨hs, hf, hp⟩ |
      ⟨hphase, gmid, heq, hs, hf⟩
    · exact gameInv_of_fields g _ hs hf hp ih
    · have hcnt : g.succeeded_quests ≤ 2 ∧ g.failed_quests ≤ 2 := by
        rcases ih.2 with hp' | hp' | hp'
        · rw [hphase] at hp'
          exact absurd hp' (by decide)
        · rw [hphase] at hp'
          exact absurd hp' (by decide)
        · exact hp'
      rw [heq]
      exact gameInv_process_team_votes gmid (by omega) (by omega)
  | questVote g p v hg ih =>
    rcases vote_on_quest_cases g p v with ⟨hs, hf, hp⟩ |
      ⟨hphase, gmid, s, f, heq, hs, hf, hsf⟩
    · exact gameInv_of_fields g _ hs hf hp ih
    · have hcnt : g.succeeded_quests ≤ 2 ∧ g.failed_quests ≤ 2 := by
        rcases ih.2 with hp' | hp' | hp'
        · rw [hphase] at hp'
          exact absurd hp' (by decide)
        · rw [hphase] at hp'
          exact absurd hp' (by decide)
        · exact hp'
      rw [heq]
      exact gameInv_process_quest_result gmid (by omega)
  | assassin g t hg ih =>
    rcases assassinate_cases g t with hc | ⟨hs, hf, hp⟩
    · rw [hc]
      exact ih
    · exact ⟨by rw [hs, hf]; exact ih.1, Or.inr (Or.inl hp)⟩

/-- C7: in every game state reachable from construction via the public
commands (with the drivers' one-time start step), `succeeded_quests +
failed_quests` is at most 5. -/
theorem quests_counters_le_five (g : AvalonGame) (h : Reachable g) :
    g.succeeded_quests + g.failed_quests ≤ 5 :=
  (reachable_gameInv g h).1

/-- Witness for C7 at the freshly constructed fixture game. -/
theorem quests_counters_le_five_witness :
    testGame.succeeded_quests + testGame.failed_quests ≤ 5 :=
  quests_counters_le_five testGame
    (Reachable.init testNames 0 testRoles testGame (by decide) rfl)
